import Mathlib

/-!
Verification of the hardware-control subsystem of the `3dprintd` printer
daemon against its specification.

The Rust sources are shallowly embedded below.  Conventions:
* `f64` arithmetic is modelled by exact rationals (`ℚ`); the floating-point
  rounding of individual operations is out of scope, but every explicit
  `round()` in the source is modelled (`roundQ`, ties away from zero like
  `f64::round`), and every numeric cast is modelled with its Rust
  saturation/truncation semantics (`satU16`, `satU32`, `satU64`, `satI32`).
* `u32`/`i32` fields are `ℕ`/`ℤ` with explicit wrap-around where the source
  can overflow (`wrapU32`, `wrapI32`, `u32ToI32`).
* fallible Rust functions become functions into `Except`; functions taking
  `&mut self` additionally return the updated state; `panic!`/`unwrap`
  sites on state machines are modelled by `Option` results.
-/

namespace Printd

/-- Rust `f64::round`: round to the nearest integer, ties away from zero. -/
def roundQ (q : ℚ) : ℚ :=
  if 0 ≤ q then ((⌊q + 1/2⌋ : ℤ) : ℚ) else ((-⌊-q + 1/2⌋ : ℤ) : ℚ)

/-- Rust float-to-integer casts truncate toward zero. -/
def truncQ (q : ℚ) : ℤ :=
  if 0 ≤ q then ⌊q⌋ else -⌊-q⌋

/-- Rust `as u16` on a float: truncate toward zero, saturate to `[0, 2^16-1]`. -/
def satU16 (q : ℚ) : ℕ :=
  (min (truncQ q) ((2 ^ 16 - 1 : ℕ) : ℤ)).toNat

/-- Rust `as u32` on a float: truncate toward zero, saturate to `[0, 2^32-1]`. -/
def satU32 (q : ℚ) : ℕ :=
  (min (truncQ q) ((2 ^ 32 - 1 : ℕ) : ℤ)).toNat

/-- Rust `as u64` on a float: truncate toward zero, saturate to `[0, 2^64-1]`. -/
def satU64 (q : ℚ) : ℕ :=
  (min (truncQ q) ((2 ^ 64 - 1 : ℕ) : ℤ)).toNat

/-- Rust `as i32` on a float: truncate toward zero, saturate to `[-2^31, 2^31-1]`. -/
def satI32 (q : ℚ) : ℤ :=
  max (-(2 ^ 31)) (min (truncQ q) (2 ^ 31 - 1))

/-- Wrapping `u32` arithmetic (release-mode `+=` on a `u32`). -/
def wrapU32 (n : ℕ) : ℕ := n % 2 ^ 32

/-- Wrapping `i32` arithmetic (release-mode `+=` on an `i32`). -/
def wrapI32 (z : ℤ) : ℤ := (z + 2 ^ 31) % 2 ^ 32 - 2 ^ 31

/-- Rust `u32 as i32`: two's-complement reinterpretation. -/
def u32ToI32 (n : ℕ) : ℤ :=
  if n < 2 ^ 31 then (n : ℤ) else (n : ℤ) - 2 ^ 32

/-! ## Shared data model (`src/comms`, `src/hw/comms.rs`, external driver types) -/

/-- Axis selector (`src/comms/mod.rs`). -/
inductive Axis
  | X
  | Y
  | Z
  deriving DecidableEq, Repr

/-- Rotation direction of a stepper (external `nanotec_stepper_driver` crate). -/
inductive RotationDirection
  | Left
  | Right
  deriving DecidableEq, Repr

/-- Direction reversal (external `nanotec_stepper_driver` crate). -/
def RotationDirection.reverse : RotationDirection → RotationDirection
  | .Left => .Right
  | .Right => .Left

/-- Modelled from the spec: `ReferenceRunOptParameters` is referenced from
`src/hw` (as the optional `speed`/`accel_decel`/`jerk` payload of a reference
run) but its definition is not among the provided sources; the spec describes
it as "optional `speed`, `accel_decel`, `jerk`". -/
structure ReferenceRunOptParameters where
  speed : Option ℕ
  accel_decel : Option ℕ
  jerk : Option ℕ
  deriving DecidableEq, Repr

/-- The `Default` instance: all parameters absent. -/
def ReferenceRunOptParameters.default : ReferenceRunOptParameters :=
  ⟨none, none, none⟩

/-- Per-axis motion primitive (`src/hw/comms.rs`). -/
structure AxisMovement where
  distance : ℤ
  min_frequency : ℕ
  max_frequency : ℕ
  acceleration : ℕ
  deceleration : ℕ
  acceleration_jerk : ℕ
  deceleration_jerk : ℕ
  deriving DecidableEq, Repr

/-- Extruder motion primitive (`src/hw/comms.rs`). -/
structure ExtruderMovement where
  direction : RotationDirection
  distance : ℕ
  min_frequency : ℕ
  max_frequency : ℕ
  acceleration : ℕ
  deceleration : ℕ
  acceleration_jerk : ℕ
  deceleration_jerk : ℕ
  deriving DecidableEq, Repr

/-- One coordinated segment (`src/hw/comms.rs`). -/
structure Movement where
  x : AxisMovement
  y : AxisMovement
  z : AxisMovement
  e : ExtruderMovement
  deriving DecidableEq, Repr

/-- Action executed by the Executor (`src/hw/comms.rs`); `Wait` carries the
total duration in milliseconds. -/
inductive Action
  | MoveAll (m : Movement)
  | ReferenceAxis (axis : Axis) (params : ReferenceRunOptParameters)
  | ReferenceZHotend
  | HotendTarget (target : Option ℕ)
  | BedTarget (target : Option ℕ)
  | WaitHotendTarget
  | WaitBedTarget
  | WaitBedMinTemp (temp : Option ℕ)
  | Wait (ms : ℕ)
  deriving DecidableEq, Repr

/-! ## Configuration (`src/config/motors.rs`, `src/config/mod.rs`)

Only the fields the hardware-control subsystem reads are embedded; values
parsed as `u32`/`u16` are `ℕ`, `translation: f64` is `ℚ`, and `step_size`
is the microstep count (`StepMode as u8`). -/

/-- Per-axis motor configuration (`src/config/motors.rs`). -/
structure AxisMotor where
  translation : ℚ
  step_size : ℕ
  quickstop_ramp : ℕ
  limit : ℕ
  speed_limit : ℕ
  accel_limit : ℕ
  decel_limit : ℕ
  accel_jerk_limit : ℕ
  decel_jerk_limit : ℕ
  endstop_direction : RotationDirection
  default_reference_speed : ℕ
  default_reference_accel : ℕ
  default_reference_jerk : ℕ
  deriving DecidableEq, Repr

/-- Extruder motor configuration (`src/config/motors.rs`). -/
structure ExtruderMotor where
  positive_direction : RotationDirection
  translation : ℚ
  step_size : ℕ
  quickstop_ramp : ℕ
  speed_limit : ℕ
  accel_limit : ℕ
  decel_limit : ℕ
  accel_jerk_limit : ℕ
  decel_jerk_limit : ℕ
  deriving DecidableEq, Repr

/-- The four motors (`src/config/motors.rs`). -/
structure MotorsConfig where
  x : AxisMotor
  y : AxisMotor
  z : AxisMotor
  e : ExtruderMotor
  deriving DecidableEq, Repr

/-- Axis-indexed access, `Motors::axis` (`src/config/motors.rs`). -/
def MotorsConfig.axis (m : MotorsConfig) : Axis → AxisMotor
  | .X => m.x
  | .Y => m.y
  | .Z => m.z

/-- Heater limits (`src/config/mod.rs`), temperatures as `u16`. -/
structure HeaterConfig where
  lower_limit : ℕ
  upper_limit : ℕ
  deriving DecidableEq, Repr

/-- The configuration slice read by the hardware-control subsystem. -/
structure Config where
  hotend : HeaterConfig
  bed : HeaterConfig
  motors : MotorsConfig
  deriving DecidableEq, Repr

/-! ## G-code records (`src/hw/decode/parser.rs` and the external `gcode` crate) -/

/-- Code class of the external `gcode` crate. -/
inductive Mnemonic
  | General
  | Miscellaneous
  | ProgramNumber
  | ToolChange
  deriving DecidableEq, Repr

/-- One argument word of a code: a letter and its numeric value. -/
structure Word where
  letter : Char
  value : ℚ
  deriving DecidableEq, Repr

/-- A code as produced by the external `gcode` crate: mnemonic, major and
minor number, argument words, and the 0-based line of its span within the
parsed text. -/
structure RawCode where
  mnemonic : Mnemonic
  major : ℕ
  minor : ℕ
  args : List Word
  spanLine : ℕ
  deriving DecidableEq, Repr

/-- Source location `GCodeSpan` (`src/hw/decode/parser.rs`): file path and
line number. -/
structure GCodeSpan where
  path : String
  line : ℕ
  deriving DecidableEq, Repr

/-- Wrapper `GCode` (`src/hw/decode/parser.rs`): the raw code plus the
0-based offset of the parsed line in the file and the file path. -/
structure GCode where
  code : RawCode
  line_offset : ℕ
  origin : String
  deriving DecidableEq, Repr

/-- Delegated accessor `GCode::mnemonic`. -/
def GCode.mnemonic (g : GCode) : Mnemonic := g.code.mnemonic

/-- Delegated accessor `GCode::major_number`. -/
def GCode.major_number (g : GCode) : ℕ := g.code.major

/-- Delegated accessor `GCode::minor_number`. -/
def GCode.minor_number (g : GCode) : ℕ := g.code.minor

/-- Delegated accessor `GCode::arguments`. -/
def GCode.arguments (g : GCode) : List Word := g.code.args

/-- `GCode::span`: the 1-based line number in the file, computed as the
span line of the raw code plus the line offset plus one. -/
def GCode.span (g : GCode) : GCodeSpan :=
  ⟨g.origin, g.code.spanLine + g.line_offset + 1⟩

/-- Semantic decode errors (`src/hw/decode/error.rs`). -/
inductive GCodeError
  | MissingArguments (code : GCode)
  | UnknownCode (code : GCode)
  | UnknownArgument (w : Word) (code : GCode)
  | DuplicateArgument (w : Word) (code : GCode)
  | PosOutOfBounds (code : GCode)
  | TempOutOfBounds (code : GCode) (lower upper : ℕ)
  deriving DecidableEq, Repr

/-! ## Decoder state (`src/hw/decode/inner_decoder.rs`) -/

/-- Coordinate interpretation mode. -/
inductive CoordMode
  | Absolute
  | Relative
  deriving DecidableEq, Repr

/-- Length unit; named `Unit` in the source (renamed here to avoid the
core `Unit` type). -/
inductive LenUnit
  | Millimeters
  | Inches
  deriving DecidableEq, Repr

/-- `Unit::in_mm`: convert a value in the current unit to millimeters. -/
def LenUnit.in_mm : LenUnit → ℚ → ℚ
  | .Millimeters, v => v
  | .Inches, v => v * 25.4

/-- Programmed G-code state (`GCodeState`): feedrate, programmed
coordinates, coordinate modes, unit and the last-set heater targets. -/
structure GCodeState where
  feedrate : Option ℚ
  x : ℚ
  y : ℚ
  z : ℚ
  e : ℚ
  xyz_coord_mode : CoordMode
  e_coord_mode : CoordMode
  unit : LenUnit
  hotend_target_temp : Option ℕ
  bed_target_temp : Option ℕ
  deriving DecidableEq, Repr

/-- The `Default` impl of `GCodeState`. -/
def GCodeState.default : GCodeState :=
  ⟨none, 0, 0, 0, 0, .Absolute, .Relative, .Millimeters, none, none⟩

/-- Mirrored actual position (`ActualState`): mm positions, step
accumulators (`steps_x`, `steps_y` are `u32`, `steps_z` is `i32`) and the
current Z hotend location. -/
structure ActualState where
  x : ℚ
  y : ℚ
  z : ℚ
  steps_x : ℕ
  steps_y : ℕ
  steps_z : ℤ
  z_hotend_location : ℚ
  deriving DecidableEq, Repr

/-- `ActualState::new`. -/
def ActualState.new (z_hotend_location : ℚ) : ActualState :=
  ⟨0, 0, 0, 0, 0, 0, z_hotend_location⟩

/-- Decoder state (`State` in `src/hw/decode/inner_decoder.rs`). -/
structure DecodeState where
  gcode : GCodeState
  actual : ActualState
  deriving DecidableEq, Repr

/-- `State::new`. -/
def DecodeState.new (z_hotend_location : ℚ) : DecodeState :=
  ⟨GCodeState.default, ActualState.new z_hotend_location⟩

/-- `State::reset`: restores the G-code state, keeps the actual state. -/
def DecodeState.reset (s : DecodeState) : DecodeState :=
  { s with gcode := GCodeState.default }

/-- `State::set_z_hotend_location`. -/
def DecodeState.set_z_hotend_location (s : DecodeState) (z : ℚ) : DecodeState :=
  { s with actual := { s.actual with z_hotend_location := z } }

/-! ## Kinematic calculation (`Decoder::g0_1`) -/

/-- Bundle of one value per motor, in the fixed order x, y, z, e. -/
structure Quad where
  x : ℚ
  y : ℚ
  z : ℚ
  e : ℚ
  deriving DecidableEq, Repr

/-- `mm_to_steps` (`src/hw/decode/inner_decoder.rs`):
`(distance_in_mm / translation) * (360/1.8) * microsteps`, rounded. -/
def mm_to_steps (mm : ℚ) (translation : ℚ) (step_size : ℕ) : ℚ :=
  roundQ (mm / translation * (360 / 1.8) * (step_size : ℚ))

/-- Body of the `limit!` macro (`Decoder::g0_1`): when the checked value
`aV` exceeds its limit, set it to the limit exactly and scale the other
three values by the same factor, rounding each. -/
def limit1 (lim : ℚ) (aV bV cV dV : ℚ) : ℚ × ℚ × ℚ × ℚ :=
  if lim < aV then
    (lim, roundQ (bV / aV * lim), roundQ (cV / aV * lim), roundQ (dV / aV * lim))
  else
    (aV, bV, cV, dV)

/-- The four `limit!(…speed_limit…)` invocations on the axis speeds, in
source order x, y, z, e; each pass checks one axis and carries the other
three positionally. -/
def speedChain (lx ly lz le : ℕ) (v : Quad) : Quad :=
  let p1 := limit1 (lx : ℚ) v.x v.y v.z v.e
  let p2 := limit1 (ly : ℚ) p1.2.1 p1.1 p1.2.2.1 p1.2.2.2
  let p3 := limit1 (lz : ℚ) p2.2.2.1 p2.2.1 p2.1 p2.2.2.2
  let p4 := limit1 (le : ℚ) p3.2.2.2 p3.2.1 p3.2.2.1 p3.1
  ⟨p4.2.1, p4.2.2.1, p4.2.2.2, p4.1⟩

/-- The `calc_by_choosing!` macro (`Decoder::g0_1`): start with the x value
at its limit, derive the others through the shared time `t = last_x / x`,
then run `limit!` over y, z, e in turn. -/
def calcByChoosing (lx ly lz le : ℕ) (last : Quad) : Quad :=
  let x0 : ℚ := (lx : ℚ)
  let t := last.x / x0
  let y0 := roundQ (last.y / t)
  let z0 := roundQ (last.z / t)
  let e0 := roundQ (last.e / t)
  let p1 := limit1 (ly : ℚ) y0 x0 z0 e0
  let p2 := limit1 (lz : ℚ) p1.2.2.1 p1.2.1 p1.1 p1.2.2.2
  let p3 := limit1 (le : ℚ) p2.2.2.2 p2.2.1 p2.2.2.1 p2.1
  ⟨p3.2.1, p3.2.2.1, p3.2.2.2, p3.1⟩

/-! ## The decoder (`src/hw/decode/inner_decoder.rs`) -/

/-- Accumulator for the argument loop of `g0_1`. -/
structure G01Args where
  x : Option ℚ
  y : Option ℚ
  z : Option ℚ
  e : Option ℚ
  f : Option ℚ
  deriving DecidableEq, Repr

/-- All-absent arguments. -/
def G01Args.empty : G01Args := ⟨none, none, none, none, none⟩

/-- The argument loop of `g0_1`: unknown letters and duplicates are
rejected, values converted to mm on assignment. -/
def parseArgs01 (u : LenUnit) (code : GCode) :
    List Word → G01Args → Except GCodeError G01Args
  | [], acc => .ok acc
  | w :: rest, acc =>
    match w.letter with
    | 'X' =>
      if acc.x.isSome then .error (.DuplicateArgument w code)
      else parseArgs01 u code rest { acc with x := some (u.in_mm w.value) }
    | 'Y' =>
      if acc.y.isSome then .error (.DuplicateArgument w code)
      else parseArgs01 u code rest { acc with y := some (u.in_mm w.value) }
    | 'Z' =>
      if acc.z.isSome then .error (.DuplicateArgument w code)
      else parseArgs01 u code rest { acc with z := some (u.in_mm w.value) }
    | 'E' =>
      if acc.e.isSome then .error (.DuplicateArgument w code)
      else parseArgs01 u code rest { acc with e := some (u.in_mm w.value) }
    | 'F' =>
      if acc.f.isSome then .error (.DuplicateArgument w code)
      else parseArgs01 u code rest { acc with f := some (u.in_mm w.value) }
    | _ => .error (.UnknownArgument w code)

/-- Local helper `calc_rel` of `g0_1`: returns the relative coordinate and
the updated programmed coordinate. -/
def calc_rel (new_coord prog_coord : ℚ) : ℚ × ℚ :=
  (new_coord - prog_coord, new_coord)

/-- The `CALCULATION` section of `Decoder::g0_1` (steps, speeds, ramps,
step accumulators and the emitted movement), taking the relative mm deltas
`x y z e` and the segment time `t`; returns the state with updated step
accumulators and the movement. -/
def g01Calc (cfg : Config) (t : ℚ) (st3 : DecodeState) (x y z e : ℚ) :
    DecodeState × Movement :=
  let xs := mm_to_steps x cfg.motors.x.translation cfg.motors.x.step_size
  let ys := mm_to_steps y cfg.motors.y.translation cfg.motors.y.step_size
  let zs := mm_to_steps z cfg.motors.z.translation cfg.motors.z.step_size
  let es := mm_to_steps e cfg.motors.e.translation cfg.motors.e.step_size
  let v := speedChain cfg.motors.x.speed_limit cfg.motors.y.speed_limit
    cfg.motors.z.speed_limit cfg.motors.e.speed_limit
    ⟨roundQ (xs / t), roundQ (ys / t), roundQ (zs / t), roundQ (es / t)⟩
  let a0 := calcByChoosing cfg.motors.x.accel_limit cfg.motors.y.accel_limit
    cfg.motors.z.accel_limit cfg.motors.e.accel_limit v
  let j0 := calcByChoosing cfg.motors.x.accel_jerk_limit cfg.motors.y.accel_jerk_limit
    cfg.motors.z.accel_jerk_limit cfg.motors.e.accel_jerk_limit a0
  let a1 := calcByChoosing cfg.motors.x.decel_limit cfg.motors.y.decel_limit
    cfg.motors.z.decel_limit cfg.motors.e.decel_limit v
  let j1 := calcByChoosing cfg.motors.x.decel_jerk_limit cfg.motors.y.decel_jerk_limit
    cfg.motors.z.decel_jerk_limit cfg.motors.e.decel_jerk_limit a1
  let steps_x1 := wrapU32 (st3.actual.steps_x + satU32 xs)
  let steps_y1 := wrapU32 (st3.actual.steps_y + satU32 ys)
  let steps_z1 := wrapI32 (st3.actual.steps_z + satI32 zs)
  let st4 : DecodeState :=
    { st3 with actual :=
      { st3.actual with steps_x := steps_x1, steps_y := steps_y1, steps_z := steps_z1 } }
  let e_direction :=
    if es < 0 then cfg.motors.e.positive_direction.reverse
    else cfg.motors.e.positive_direction
  let movement : Movement :=
    { x := { distance := u32ToI32 steps_x1, min_frequency := 1,
             max_frequency := satU32 v.x, acceleration := satU32 a0.x,
             deceleration := satU32 a1.x, acceleration_jerk := satU32 j0.x,
             deceleration_jerk := satU32 j1.x }
      y := { distance := u32ToI32 steps_y1, min_frequency := 1,
             max_frequency := satU32 v.y, acceleration := satU32 a0.y,
             deceleration := satU32 a1.y, acceleration_jerk := satU32 j0.y,
             deceleration_jerk := satU32 j1.y }
      z := { distance := steps_z1, min_frequency := 1,
             max_frequency := satU32 v.z, acceleration := satU32 a0.z,
             deceleration := satU32 a1.z, acceleration_jerk := satU32 j0.z,
             deceleration_jerk := satU32 j1.z }
      e := { direction := e_direction, distance := satU32 es, min_frequency := 1,
             max_frequency := satU32 v.e, acceleration := satU32 a0.e,
             deceleration := satU32 a1.e, acceleration_jerk := satU32 j0.e,
             deceleration_jerk := satU32 j1.e } }
  (st4, movement)

/-- The bounds-check-and-onward part of `Decoder::g0_1`, from the
`actual_*_new` computation to the emitted action: `st1` is the state with
the programmed coordinates already updated, `x y z e` the relative deltas
in mm, `fopt` the parsed `F` argument. -/
def g01Checks (cfg : Config) (t : ℚ) (st1 : DecodeState) (code : GCode)
    (fopt : Option ℚ) (x y z e : ℚ) : DecodeState × Except GCodeError Action :=
  let actual_x_new := st1.actual.x + x
  let actual_y_new := st1.actual.y + y
  let actual_z_new := st1.actual.z + z
  if ¬ (0 ≤ actual_x_new) then (st1, .error (.PosOutOfBounds code)) else
  if ¬ (0 ≤ actual_y_new) then (st1, .error (.PosOutOfBounds code)) else
  if ¬ (st1.actual.z_hotend_location ≤ actual_z_new) then
    (st1, .error (.PosOutOfBounds code)) else
  if ¬ (actual_x_new ≤ (cfg.motors.x.limit : ℚ)) then
    (st1, .error (.PosOutOfBounds code)) else
  if ¬ (actual_y_new ≤ (cfg.motors.y.limit : ℚ)) then
    (st1, .error (.PosOutOfBounds code)) else
  if ¬ (actual_z_new ≤ 0) then (st1, .error (.PosOutOfBounds code)) else
  let st2 : DecodeState :=
    { st1 with actual :=
      { st1.actual with x := actual_x_new, y := actual_y_new, z := actual_z_new } }
  let st3 : DecodeState :=
    match fopt with
    | some fv => { st2 with gcode := { st2.gcode with feedrate := some fv } }
    | none => st2
  match st3.gcode.feedrate with
  | none => (st3, .error (.MissingArguments code))
  | some _f =>
    let r := g01Calc cfg t st3 x y z e
    (r.1, .ok (.MoveAll r.2))

/-- The body of `Decoder::g0_1` once the arguments parsed: coordinate-mode
handling (with the source's relative-mode slip of adding all three deltas
to the programmed x), then the checks and the calculation. -/
def g01WithArgs (cfg : Config) (t : ℚ) (st : DecodeState) (code : GCode)
    (args : G01Args) : DecodeState × Except GCodeError Action :=
  let x0 := args.x.getD 0
  let y0 := args.y.getD 0
  let z0 := args.z.getD 0
  let e0 := args.e.getD 0
  let xyzRes : ℚ × ℚ × ℚ × GCodeState :=
    match st.gcode.xyz_coord_mode with
    | .Absolute =>
      ((calc_rel x0 st.gcode.x).1, (calc_rel y0 st.gcode.y).1, (calc_rel z0 st.gcode.z).1,
       { st.gcode with x := (calc_rel x0 st.gcode.x).2, y := (calc_rel y0 st.gcode.y).2,
                       z := (calc_rel z0 st.gcode.z).2 })
    | .Relative =>
      (x0, y0, z0, { st.gcode with x := st.gcode.x + x0 + y0 + z0 })
  let g1 := xyzRes.2.2.2
  let eRes : ℚ × GCodeState :=
    match g1.e_coord_mode with
    | .Absolute => ((calc_rel e0 g1.e).1, { g1 with e := (calc_rel e0 g1.e).2 })
    | .Relative => (e0, { g1 with e := g1.e + e0 })
  let st1 : DecodeState := { st with gcode := eRes.2 }
  g01Checks cfg t st1 code args.f xyzRes.1 xyzRes.2.1 xyzRes.2.2.1 eRes.1

/-- `Decoder::g0_1`.

The source computes the segment time `t = s / (f/60)` with
`s = sqrt(dx² + dy² + dz²)` in `f64`; the rational model has no square
root, so `t` is a parameter here and every theorem about `g0_1` is proved
for all values of `t`.  State mutations, bounds checks, error paths,
kinematic scaling and integer casts follow the source (split into
`g01WithArgs`, `g01Checks` and `g01Calc` along the source's own sections),
including the relative-mode programmed-coordinate update (which adds all
three deltas to the programmed x coordinate) and the saturating `as u32`
casts on the step accumulators and the extruder distance. -/
def g0_1 (cfg : Config) (t : ℚ) (st : DecodeState) (code : GCode) :
    DecodeState × Except GCodeError Action :=
  if code.arguments.isEmpty then (st, .error (.MissingArguments code)) else
  match parseArgs01 st.gcode.unit code code.arguments G01Args.empty with
  | .error err => (st, .error err)
  | .ok args => g01WithArgs cfg t st code args

/-- Argument loop of `Decoder::g28`: only X and Y are known letters; any
other letter is an unknown argument. -/
def g28Flags (code : GCode) : List Word → Bool × Bool → Except GCodeError (Bool × Bool)
  | [], fl => .ok fl
  | w :: rest, fl =>
    match w.letter with
    | 'X' => g28Flags code rest (true, fl.2)
    | 'Y' => g28Flags code rest (fl.1, true)
    | _ => .error (.UnknownArgument w code)

/-- `Decoder::g28`: home X and/or Y with default reference parameters; no
arguments means both; the Z axis is never referenced. -/
def g28 (st : DecodeState) (code : GCode) :
    DecodeState × Except GCodeError (List (Action × GCode)) :=
  let flags :=
    if code.arguments.isEmpty then .ok (true, true)
    else g28Flags code code.arguments (false, false)
  match flags with
  | .error err => (st, .error err)
  | .ok (xf, yf) =>
    let acts1 :=
      if xf then [(Action.ReferenceAxis .X ReferenceRunOptParameters.default, code)] else []
    let acts2 :=
      if yf then acts1 ++ [(Action.ReferenceAxis .Y ReferenceRunOptParameters.default, code)]
      else acts1
    (st, .ok acts2)

/-- Argument loop of `extract_temp_from_code`: only `S` is known. -/
def extractTempLoop (code : GCode) : List Word → Option ℕ → Except GCodeError (Option ℕ)
  | [], acc => .ok acc
  | w :: rest, acc =>
    match w.letter with
    | 'S' =>
      if acc.isSome then .error (.DuplicateArgument w code)
      else extractTempLoop code rest (some (satU16 w.value))
    | _ => .error (.UnknownArgument w code)

/-- `extract_temp_from_code` (`src/hw/decode/inner_decoder.rs`): the `S`
argument as `u16`; 0 encodes off; otherwise the value must lie within the
heater limits. -/
def extract_temp_from_code (code : GCode) (lower_limit upper_limit : ℕ) :
    Except GCodeError (Option ℕ) :=
  if code.arguments.isEmpty then .error (.MissingArguments code) else
  match extractTempLoop code code.arguments none with
  | .error err => .error err
  | .ok acc =>
    -- the source's `temp.unwrap()`: the loop has set `temp` because the
    -- argument list is nonempty and every non-error argument is an `S`
    let temp := acc.getD 0
    if temp = 0 then .ok none
    else if lower_limit ≤ temp ∧ temp ≤ upper_limit then .ok (some temp)
    else .error (.TempOutOfBounds code lower_limit upper_limit)

/-- Argument loop of `Decoder::g4`: `P` milliseconds and `S` seconds. -/
def g4Loop (code : GCode) :
    List Word → Option ℕ → Option ℕ → Except GCodeError (Option ℕ × Option ℕ)
  | [], ms, s => .ok (ms, s)
  | w :: rest, ms, s =>
    match w.letter with
    | 'P' =>
      if ms.isSome then .error (.DuplicateArgument w code)
      else g4Loop code rest (some (satU64 w.value)) s
    | 'S' =>
      if s.isSome then .error (.DuplicateArgument w code)
      else g4Loop code rest ms (some (satU64 w.value))
    | _ => .error (.UnknownArgument w code)

/-- `Decoder::g4`: dwell for `P` milliseconds plus `S` seconds. -/
def g4 (code : GCode) : Except GCodeError Action :=
  if code.arguments.isEmpty then .error (.MissingArguments code) else
  match g4Loop code code.arguments none none with
  | .error err => .error err
  | .ok (ms, s) => .ok (.Wait (ms.getD 0 + 1000 * s.getD 0))

/-- Shared shape of the no-argument codes (`g20`, `g21`, `g90`, `g91`,
`m82`, `m83`): the first argument, if any, is unknown. -/
def ensureNoArgs (code : GCode) : Except GCodeError Unit :=
  match code.arguments with
  | [] => .ok ()
  | w :: _ => .error (.UnknownArgument w code)

/-- Accumulator for the argument loop of `g92`. -/
structure G92Args where
  x : Option ℚ
  y : Option ℚ
  z : Option ℚ
  e : Option ℚ
  deriving DecidableEq, Repr

/-- Argument loop of `Decoder::g92`. -/
def parseArgs92 (u : LenUnit) (code : GCode) :
    List Word → G92Args → Except GCodeError G92Args
  | [], acc => .ok acc
  | w :: rest, acc =>
    match w.letter with
    | 'X' =>
      if acc.x.isSome then .error (.DuplicateArgument w code)
      else parseArgs92 u code rest { acc with x := some (u.in_mm w.value) }
    | 'Y' =>
      if acc.y.isSome then .error (.DuplicateArgument w code)
      else parseArgs92 u code rest { acc with y := some (u.in_mm w.value) }
    | 'Z' =>
      if acc.z.isSome then .error (.DuplicateArgument w code)
      else parseArgs92 u code rest { acc with z := some (u.in_mm w.value) }
    | 'E' =>
      if acc.e.isSome then .error (.DuplicateArgument w code)
      else parseArgs92 u code rest { acc with e := some (u.in_mm w.value) }
    | _ => .error (.UnknownArgument w code)

/-- `Decoder::g92`: redefine programmed coordinates without moving. -/
def g92 (st : DecodeState) (code : GCode) : DecodeState × Except GCodeError Unit :=
  if code.arguments.isEmpty then (st, .error (.MissingArguments code)) else
  match parseArgs92 st.gcode.unit code code.arguments ⟨none, none, none, none⟩ with
  | .error err => (st, .error err)
  | .ok a =>
    ({ st with gcode := { st.gcode with
        x := a.x.getD st.gcode.x, y := a.y.getD st.gcode.y,
        z := a.z.getD st.gcode.z, e := a.e.getD st.gcode.e } }, .ok ())

/-- `Decoder::decode` (`src/hw/decode/inner_decoder.rs`): dispatch one
parsed code; state-only codes yield `none` like the source's
`Option<VecDeque<…>>`.  The parameter `t` is the segment time forwarded to
`g0_1` (see there). -/
def decode (cfg : Config) (t : ℚ) (st : DecodeState) (code : GCode) :
    DecodeState × Except GCodeError (Option (List (Action × GCode))) :=
  if ¬ (code.minor_number = 0) then (st, .error (.UnknownCode code)) else
  match code.mnemonic with
  | .General =>
    match code.major_number with
    | 0 =>
      let (st', r) := g0_1 cfg t st code
      (st', r.map fun a => some [(a, code)])
    | 1 =>
      let (st', r) := g0_1 cfg t st code
      (st', r.map fun a => some [(a, code)])
    | 4 => (st, (g4 code).map fun a => some [(a, code)])
    | 20 =>
      match ensureNoArgs code with
      | .error err => (st, .error err)
      | .ok _ => ({ st with gcode := { st.gcode with unit := .Inches } }, .ok none)
    | 21 =>
      match ensureNoArgs code with
      | .error err => (st, .error err)
      | .ok _ => ({ st with gcode := { st.gcode with unit := .Millimeters } }, .ok none)
    | 28 =>
      let (st', r) := g28 st code
      (st', r.map fun dq => some dq)
    | 90 =>
      match ensureNoArgs code with
      | .error err => (st, .error err)
      | .ok _ =>
        ({ st with gcode := { st.gcode with xyz_coord_mode := .Absolute } }, .ok none)
    | 91 =>
      match ensureNoArgs code with
      | .error err => (st, .error err)
      | .ok _ =>
        ({ st with gcode := { st.gcode with xyz_coord_mode := .Relative } }, .ok none)
    | 92 =>
      let (st', r) := g92 st code
      (st', r.map fun _ => none)
    | _ => (st, .error (.UnknownCode code))
  | .Miscellaneous =>
    match code.major_number with
    | 82 =>
      match ensureNoArgs code with
      | .error err => (st, .error err)
      | .ok _ =>
        ({ st with gcode := { st.gcode with e_coord_mode := .Absolute } }, .ok none)
    | 83 =>
      match ensureNoArgs code with
      | .error err => (st, .error err)
      | .ok _ =>
        ({ st with gcode := { st.gcode with e_coord_mode := .Relative } }, .ok none)
    | 84 => (st, .ok none)
    | 104 =>
      match extract_temp_from_code code cfg.hotend.lower_limit cfg.hotend.upper_limit with
      | .error err => (st, .error err)
      | .ok target =>
        ({ st with gcode := { st.gcode with hotend_target_temp := target } },
         .ok (some [(.HotendTarget target, code)]))
    | 106 => (st, .ok none)
    | 107 => (st, .ok none)
    | 109 =>
      match extract_temp_from_code code cfg.hotend.lower_limit cfg.hotend.upper_limit with
      | .error err => (st, .error err)
      | .ok target =>
        ({ st with gcode := { st.gcode with hotend_target_temp := target } },
         .ok (some [(.HotendTarget target, code), (.WaitHotendTarget, code)]))
    | 140 =>
      match extract_temp_from_code code cfg.bed.lower_limit cfg.bed.upper_limit with
      | .error err => (st, .error err)
      | .ok target =>
        ({ st with gcode := { st.gcode with bed_target_temp := target } },
         .ok (some [(.BedTarget target, code)]))
    | 190 =>
      match extract_temp_from_code code cfg.bed.lower_limit cfg.bed.upper_limit with
      | .error err => (st, .error err)
      | .ok temp => (st, .ok (some [(.WaitBedMinTemp temp, code)]))
    | _ => (st, .error (.UnknownCode code))
  | .ToolChange =>
    match code.major_number with
    | 0 => (st, .ok none)
    | _ => (st, .error (.UnknownCode code))
  | .ProgramNumber => (st, .error (.UnknownCode code))

/-! ## Job state machine (`src/hw/state.rs`) -/

/-- Job state-machine errors (`src/hw/state.rs`). -/
inductive StateError
  | NotPrinting
  | NotPaused
  | NotStopped
  | Printing
  | Paused
  | Stopped
  deriving DecidableEq, Repr

/-- `PrintingState`: path of the printed file and the current-line atomic
(modelled by its value). -/
structure PrintingState where
  path : String
  current_line : ℕ
  deriving DecidableEq, Repr

/-- `InnerState` of the job state machine. -/
inductive JobInnerState
  | Printing
  | Paused
  | Stopped
  deriving DecidableEq, Repr

/-- `State` (`src/hw/state.rs`). -/
structure JobState where
  state : JobInnerState
  printing_state : Option PrintingState
  deriving DecidableEq, Repr

/-- `State::new`. -/
def JobState.new : JobState := ⟨.Stopped, none⟩

/-- `State::is_stopped`. -/
def JobState.is_stopped (s : JobState) : Bool :=
  match s.state with
  | .Stopped => true
  | _ => false

/-- `State::is_printing`. -/
def JobState.is_printing (s : JobState) : Bool :=
  match s.state with
  | .Printing => true
  | _ => false

/-- `State::is_paused`. -/
def JobState.is_paused (s : JobState) : Bool :=
  match s.state with
  | .Paused => true
  | _ => false

/-- `State::print`: panics (`none`) unless stopped; starts at line 1. -/
def JobState.print (s : JobState) (path : String) : Option JobState :=
  match s.state with
  | .Stopped => some ⟨.Printing, some ⟨path, 1⟩⟩
  | _ => none

/-- `State::stop`: total, always lands in `Stopped` with no printing state. -/
def JobState.stop (_s : JobState) : JobState := ⟨.Stopped, none⟩

/-- `State::play`: no-op when printing, resumes when paused, panics
(`none`) when stopped. -/
def JobState.play (s : JobState) : Option JobState :=
  match s.state with
  | .Printing => some s
  | .Paused => some { s with state := .Printing }
  | .Stopped => none

/-- `State::pause`: pauses when printing, no-op when paused, panics
(`none`) when stopped. -/
def JobState.pause (s : JobState) : Option JobState :=
  match s.state with
  | .Printing => some { s with state := .Paused }
  | .Paused => some s
  | .Stopped => none

/-! ## HwCtrl façade (`src/hw/mod.rs`)

Only the job-state outcome of each operation is modelled; the executor and
file-system calls the operations make while holding the state lock are
elided (their failures are not governed by `StateError`). -/

/-- `HwCtrl::try_print`: requires `Stopped`, else `StateError::NotStopped`. -/
def HwCtrl.try_print (s : JobState) (path : String) : Except StateError JobState :=
  if s.is_stopped then
    match s.print path with
    | some s' => .ok s'
    | none => .error .NotStopped   -- unreachable: `State::print` only panics when not stopped
  else .error .NotStopped

/-- `HwCtrl::stop`: unconditional. -/
def HwCtrl.stop (s : JobState) : JobState := s.stop

/-- `HwCtrl::try_play`: requires non-stopped, else `StateError::Stopped`. -/
def HwCtrl.try_play (s : JobState) : Except StateError JobState :=
  if s.is_stopped then .error .Stopped
  else
    match s.play with
    | some s' => .ok s'
    | none => .error .Stopped   -- unreachable: `State::play` only panics when stopped

/-- `HwCtrl::try_pause`: requires non-stopped, else `StateError::Stopped`. -/
def HwCtrl.try_pause (s : JobState) : Except StateError JobState :=
  if s.is_stopped then .error .Stopped
  else
    match s.pause with
    | some s' => .ok s'
    | none => .error .Stopped   -- unreachable: `State::pause` only panics when stopped

/-! ## Executor job state (`src/hw/execute/mod.rs`) -/

/-- `PrintingData`: the running decoder (represented by the decoder state
it owns) and the current-line atomic (represented by its value); the
thread and channel handles of `ThreadedDecoder` are not representable. -/
structure PrintingData where
  decoder : DecodeState
  line : ℕ
  deriving DecidableEq, Repr

/-- `InnerState` of the executor: `Stopped` keeps the decoder state. -/
inductive ExecInnerState
  | Printing
  | Paused
  | Stopped (ds : DecodeState)
  deriving DecidableEq, Repr

/-- Executor-side `State` (`src/hw/execute/mod.rs`). -/
structure ExecState where
  inner : ExecInnerState
  data : Option PrintingData
  deriving DecidableEq, Repr

/-- `State::new` of the executor, seeded with the Z hotend location. -/
def ExecState.new (z_hotend_location : ℚ) : ExecState :=
  ⟨.Stopped (DecodeState.new z_hotend_location), none⟩

/-- `State::print` of the executor: moves the saved decoder state into the
spawned decoder; panics (`none`) unless stopped. -/
def ExecState.print (s : ExecState) (line : ℕ) : Option ExecState :=
  match s.inner with
  | .Stopped ds => some ⟨.Printing, some ⟨ds, line⟩⟩
  | _ => none

/-- `State::stop` of the executor: keeps a stopped state unchanged,
otherwise takes the decoder state back (`self.data.take().unwrap()`),
resets it and stores it in `Stopped`. -/
def ExecState.stop (s : ExecState) : Option ExecState :=
  match s.inner with
  | .Stopped _ => some s
  | _ =>
    match s.data with
    | some pd => some ⟨.Stopped pd.decoder.reset, none⟩
    | none => none   -- `unwrap` panics

/-- `State::play` of the executor: panics (`none`) when stopped, otherwise
sets the inner state to `Printing` and leaves `data` untouched. -/
def ExecState.play (s : ExecState) : Option ExecState :=
  match s.inner with
  | .Stopped _ => none
  | _ => some { s with inner := .Printing }

/-- `State::pause` of the executor: panics (`none`) when stopped, otherwise
sets the inner state to `Paused` and leaves `data` untouched. -/
def ExecState.pause (s : ExecState) : Option ExecState :=
  match s.inner with
  | .Stopped _ => none
  | _ => some { s with inner := .Paused }

/-- `State::decoder_mut` of the executor: yields the printing data whenever
it is present, without consulting the inner state. -/
def ExecState.decoder_mut (s : ExecState) : Option PrintingData := s.data

/-- The branch decision of `executor_loop` once the control channel is
drained: the loop pulls the next action from the decoder exactly when
`state.decoder_mut()` is `Some`. -/
def ExecState.pullsFromDecoder (s : ExecState) : Bool := s.decoder_mut.isSome

/-! ## Thermal regulator data (`src/hw/pi/mod.rs`) -/

/-- `WaitTempError` (`src/hw/pi/error.rs`). -/
inductive WaitTempError
  | TargetChanged
  deriving DecidableEq, Repr

/-- `AtomicTargetTemp::opt_to_u16`: 0 encodes `None`; storing `Some 0`
panics (modelled as `none`). -/
def opt_to_u16 : Option ℕ → Option ℕ
  | some t => if 0 < t then some t else none
  | none => some 0

/-- A message sent on a waiter's one-shot reply channel: the waiter id and
the delivered result. -/
abbrev WaitTempComms := Except WaitTempError Unit

/-- `PiThreadData` (`src/hw/pi/mod.rs`): targets as raw `u16` (0 = off) and
the parked reply senders, modelled by ids; `bed_min_waiting` is a
`BTreeMap` keyed by the minimum temperature. -/
structure PiThreadData where
  hotend_target : ℕ
  hotend_waiting : List ℕ
  bed_target : ℕ
  bed_waiting : List ℕ
  bed_min_waiting : List (Option ℕ × ℕ)
  deriving DecidableEq, Repr

/-- Fresh thread data: both targets off, no waiters. -/
def PiThreadData.new : PiThreadData := ⟨0, [], 0, [], []⟩

/-- `notify_waiting_target_changed`: each drained sender receives
`Err(WaitTempError::TargetChanged)`. -/
def notify_waiting_target_changed (waiting : List ℕ) : List (ℕ × WaitTempComms) :=
  waiting.map fun id => (id, .error .TargetChanged)

/-- `PiThreadData::set_hotend_target`: stores the target, then releases
every parked hotend waiter with `TargetChanged` — unconditionally, whether
or not the stored value differs from the previous one.  Returns the sent
messages; `none` models the `opt_to_u16` panic on `Some 0`. -/
def PiThreadData.set_hotend_target (d : PiThreadData) (target : Option ℕ) :
    Option (PiThreadData × List (ℕ × WaitTempComms)) :=
  match opt_to_u16 target with
  | none => none
  | some raw =>
    some ({ d with hotend_target := raw, hotend_waiting := [] },
      notify_waiting_target_changed d.hotend_waiting)

/-- `BTreeMap::insert` on the minimum-temperature map: replace or append. -/
def insertBTree (m : List (Option ℕ × ℕ)) (k : Option ℕ) (v : ℕ) : List (Option ℕ × ℕ) :=
  match m with
  | [] => [(k, v)]
  | (k', v') :: rest =>
    if k' = k then (k, v) :: rest else (k', v') :: insertBTree rest k v

/-- `PiThreadData::set_bed_target`: same shape for the bed, releasing both
target waiters and minimum-temperature waiters. -/
def PiThreadData.set_bed_target (d : PiThreadData) (target : Option ℕ) :
    Option (PiThreadData × List (ℕ × WaitTempComms)) :=
  match opt_to_u16 target with
  | none => none
  | some raw =>
    some ({ d with bed_target := raw, bed_waiting := [], bed_min_waiting := [] },
      notify_waiting_target_changed d.bed_waiting ++
      notify_waiting_target_changed (d.bed_min_waiting.map Prod.snd))

/-- `PiThreadData::add_hotend_waiting`: park a reply sender. -/
def PiThreadData.add_hotend_waiting (d : PiThreadData) (id : ℕ) : PiThreadData :=
  { d with hotend_waiting := d.hotend_waiting ++ [id] }

/-- `PiThreadData::add_bed_waiting`. -/
def PiThreadData.add_bed_waiting (d : PiThreadData) (id : ℕ) : PiThreadData :=
  { d with bed_waiting := d.bed_waiting ++ [id] }

/-- `PiThreadData::add_bed_min_waiting`. -/
def PiThreadData.add_bed_min_waiting (d : PiThreadData) (min_temp : Option ℕ) (id : ℕ) :
    PiThreadData :=
  { d with bed_min_waiting := insertBTree d.bed_min_waiting min_temp id }

/-- `PiThreadData::update_hotend_heat` in the default (hardware) build is a
`FIXME TODO` stub: it reads no temperature, drives no heater and releases
no waiter. -/
def PiThreadData.update_hotend_heat (d : PiThreadData) :
    PiThreadData × List (ℕ × WaitTempComms) := (d, [])

/-- `PiThreadData::update_bed_heat` in the default (hardware) build is a
`FIXME TODO` stub as well. -/
def PiThreadData.update_bed_heat (d : PiThreadData) :
    PiThreadData × List (ℕ × WaitTempComms) := (d, [])

/-! ## Streaming parser (`src/hw/decode/parser.rs`) and file decoder
(`src/hw/decode/file_decoder.rs`)

The lexical analysis itself lives in the external `gcode` crate; it is a
parameter `lex` mapping one source line to the produced raw codes plus the
first callback error (kind and the span line the callback reports, which
for a single parsed line is relative to that line). -/

/-- The five lexical callback conditions of the external crate. -/
inductive LexErrKind
  | UnknownContent
  | UnexpectedLineNumber
  | ArgumentWithoutCommand
  | NumberWithoutLetter
  | LetterWithoutNumber
  deriving DecidableEq, Repr

/-- Result of lexing one line: codes and the first callback error. -/
structure LexOut where
  codes : List RawCode
  err : Option (LexErrKind × ℕ)
  deriving DecidableEq, Repr

/-- `ParsingError` (`src/hw/decode/parser.rs`); the last variant keeps the
source's spelling. -/
inductive ParsingError
  | UnknownContent (span : GCodeSpan)
  | UnexpectedLineNumber (span : GCodeSpan)
  | ArgumentWithoutCommand (span : GCodeSpan)
  | NumberWithoutLetter (span : GCodeSpan)
  | LetterWithoutNumebr (span : GCodeSpan)
  deriving DecidableEq, Repr

/-- Map a callback kind to its `ParsingError` variant (`try_set_err!`). -/
def ParsingError.ofKind : LexErrKind → GCodeSpan → ParsingError
  | .UnknownContent, sp => .UnknownContent sp
  | .UnexpectedLineNumber, sp => .UnexpectedLineNumber sp
  | .ArgumentWithoutCommand, sp => .ArgumentWithoutCommand sp
  | .NumberWithoutLetter, sp => .NumberWithoutLetter sp
  | .LetterWithoutNumber, sp => .LetterWithoutNumebr sp

/-- `ParserError` (`src/hw/decode/parser.rs`).  The model's reader is a
pure list of lines, so the `IoError` variant is never produced here. -/
inductive ParserError
  | IoError
  | ParsingError (e : Printd.ParsingError)
  deriving DecidableEq, Repr

/-- `Parser` (`src/hw/decode/parser.rs`): the remaining lines of the
reader, the next 1-based line number, the file path and the sticky error
flag.  The `UnforgivingCallbacks.path` option only feeds panics already
covered by `prev_err` and is elided. -/
structure Parser where
  lines : List String
  next_line : ℕ
  path : String
  prev_err : Bool
  deriving DecidableEq, Repr

/-- `Parser::new`. -/
def Parser.new (reader : List String) (path : String) : Parser :=
  ⟨reader, 1, path, false⟩

/-- Loop body of `Parser::try_n`: parse up to `n` more lines; codes are
collected before the callback error of their line is checked; on a
callback error the error is returned with the span the callback reported
(path plus the callback's span line, not the file line). -/
def tryNLoop (lex : String → LexOut) (path : String) :
    ℕ → ℕ → List String → List GCode →
    Except ParserError (List GCode) × List String × Bool
  | 0, _i, rest, acc => (.ok acc, rest, false)
  | _n + 1, _i, [], acc => (.ok acc, [], false)
  | n + 1, i, line :: rest, acc =>
    let lo := lex line
    let acc' := acc ++ lo.codes.map fun c => GCode.mk c i path
    match lo.err with
    | some (kind, spanLine) =>
      (.error (.ParsingError (ParsingError.ofKind kind ⟨path, spanLine⟩)), rest, true)
    | none => tryNLoop lex path n (i + 1) rest acc'

/-- `Parser::try_n`: asserts that no previous error occurred (`none`
models the assertion failure), advances `next_line` by `n` and parses up
to `n` lines. -/
def Parser.try_n (lex : String → LexOut) (p : Parser) (n : ℕ) :
    Option (Except ParserError (List GCode) × Parser) :=
  if p.prev_err then none else
  let (res, rest, errFlag) := tryNLoop lex p.path n p.next_line p.lines []
  some (res, { p with lines := rest, next_line := p.next_line + n, prev_err := errFlag })

/-- `DecoderError` (`src/hw/decode/error.rs`). -/
inductive DecoderError
  | StateError (e : StateError)
  | GCodeError (e : GCodeError)
  | IoError
  deriving DecidableEq, Repr

/-- `BUFSIZE` of the file decoder. -/
def BUFSIZE : ℕ := 512

/-- `FileDecoder` (`src/hw/decode/file_decoder.rs`): parser, buffered
actions, and the inner decoder's state (its settings are passed to the
functions below as parameters). -/
structure FileDecoder where
  parser : Parser
  buf : List (Action × GCode)
  decoder : DecodeState
  deriving DecidableEq, Repr

/-- `FileDecoder::with_state_and_file`. -/
def FileDecoder.with_state_and_file (state : DecodeState) (file : List String)
    (path : String) : FileDecoder :=
  ⟨Parser.new file path, [], state⟩

/-- The inner loop of `check_buffer`: decode each code, extending the
buffer; a decode error propagates (the `?` operator). -/
def decodeList (cfg : Config) (t : ℚ) :
    DecodeState → List GCode → List (Action × GCode) →
    DecodeState × Except DecoderError (List (Action × GCode))
  | ds, [], acc => (ds, .ok acc)
  | ds, c :: rest, acc =>
    match decode cfg t ds c with
    | (ds', .error e) => (ds', .error (.GCodeError e))
    | (ds', .ok none) => decodeList cfg t ds' rest acc
    | (ds', .ok (some actions)) => decodeList cfg t ds' rest (acc ++ actions)

/-- `FileDecoder::check_buffer`.  The source iterates
`self.parser.try_n(BUFSIZE).into_iter()`, and `Result::into_iter` yields
nothing for `Err`: a parser error is silently dropped and the function
returns `Ok(())` with an empty buffer.  `none` models the panic inside
`try_n`. -/
def FileDecoder.check_buffer (cfg : Config) (t : ℚ) (lex : String → LexOut)
    (fd : FileDecoder) : Option (Except DecoderError Unit × FileDecoder) :=
  if fd.buf.isEmpty then
    match fd.parser.try_n lex BUFSIZE with
    | none => none
    | some (.error _e, p') => some (.ok (), { fd with parser := p' })
    | some (.ok codes, p') =>
      match decodeList cfg t fd.decoder codes [] with
      | (ds', .error e) => some (.error e, { fd with parser := p', decoder := ds' })
      | (ds', .ok newBuf) =>
        some (.ok (), { parser := p', buf := fd.buf ++ newBuf, decoder := ds' })
  else some (.ok (), fd)

/-- `<FileDecoder as Iterator>::next`: the outer `Option` models a panic,
the inner `Option` is the iterator protocol (`none` = stream ended). -/
def FileDecoder.next (cfg : Config) (t : ℚ) (lex : String → LexOut) (fd : FileDecoder) :
    Option (Option (Except DecoderError (Action × GCode)) × FileDecoder) :=
  match fd.check_buffer cfg t lex with
  | none => none
  | some (.error e, fd') => some (some (.error e), fd')
  | some (.ok _, fd') =>
    match fd'.buf with
    | [] => some (none, fd')
    | a :: rest => some (some (.ok a), { fd' with buf := rest })

/-! ## Executor control (`src/hw/execute/control.rs`) and HwCtrl
referencing (`src/hw/mod.rs`) -/

/-- `OutOfBoundsError(name, was, limit)` (`src/hw/execute/control.rs`). -/
structure OutOfBoundsError where
  name : String
  was : ℕ
  limit : ℕ
  deriving DecidableEq, Repr

/-- Jerk checks of `ExecutorCtrl::reference_axis`.  The source's second
check compares the jerk against `decel_limit` while reporting
`decel_jerk_limit` in the error (and labels both errors `accel_decel`);
this slip is kept faithfully. -/
def referenceAxisJerkCheck (cfg : AxisMotor) (p : ReferenceRunOptParameters) :
    Except OutOfBoundsError Unit :=
  match p.jerk with
  | none => .ok ()
  | some jerk =>
    if cfg.accel_jerk_limit < jerk then .error ⟨"accel_decel", jerk, cfg.accel_jerk_limit⟩
    else if cfg.decel_limit < jerk then .error ⟨"accel_decel", jerk, cfg.decel_jerk_limit⟩
    else .ok ()

/-- Acceleration/deceleration checks of `ExecutorCtrl::reference_axis`. -/
def referenceAxisAccelCheck (cfg : AxisMotor) (p : ReferenceRunOptParameters) :
    Except OutOfBoundsError Unit :=
  match p.accel_decel with
  | none => referenceAxisJerkCheck cfg p
  | some ad =>
    if cfg.accel_limit < ad then .error ⟨"accel_decel", ad, cfg.accel_limit⟩
    else if cfg.decel_limit < ad then .error ⟨"accel_decel", ad, cfg.decel_limit⟩
    else referenceAxisJerkCheck cfg p

/-- `ExecutorCtrl::reference_axis`: validates the optional parameters
against the axis configuration and, when all checks pass, sends
`ReferenceAxis(axis, parameters)` on the manual channel (the `ok` value is
the sent message). -/
def ExecutorCtrl.reference_axis (m : MotorsConfig) (axis : Axis)
    (parameters : ReferenceRunOptParameters) :
    Except OutOfBoundsError (Axis × ReferenceRunOptParameters) :=
  let cfg := m.axis axis
  let rest :=
    match parameters.speed with
    | none => referenceAxisAccelCheck cfg parameters
    | some speed =>
      if cfg.speed_limit < speed then .error ⟨"speed", speed, cfg.speed_limit⟩
      else referenceAxisAccelCheck cfg parameters
  rest.map fun _ => (axis, parameters)

/-- `TryReferenceError` (`src/hw/mod.rs`). -/
inductive TryReferenceError
  | StateError (e : Printd.StateError)
  | OutOfBoundsError (e : Printd.OutOfBoundsError)
  deriving DecidableEq, Repr

/-- `HwCtrl::try_reference_axis`: requires the job state machine to be
stopped, then delegates to `ExecutorCtrl::reference_axis`. -/
def HwCtrl.try_reference_axis (m : MotorsConfig) (s : JobState) (axis : Axis)
    (parameters : ReferenceRunOptParameters) :
    Except TryReferenceError (Axis × ReferenceRunOptParameters) :=
  if s.is_stopped then
    (ExecutorCtrl.reference_axis m axis parameters).mapError .OutOfBoundsError
  else .error (.StateError .NotStopped)

/-! ## Spec-side characterizations used by the claim statements -/

/-- The relative x/y/z deltas a `G0`/`G1` requests, as the spec describes
them ("makes them relative using current `prog_*`"): `none` when the
argument phase rejects the code.  Used to state which moves count as
"target out of bounds". -/
def g01Deltas (st : DecodeState) (code : GCode) : Option (ℚ × ℚ × ℚ) :=
  if code.arguments.isEmpty then none else
  match parseArgs01 st.gcode.unit code code.arguments G01Args.empty with
  | .error _ => none
  | .ok args =>
    match st.gcode.xyz_coord_mode with
    | .Absolute =>
      some (args.x.getD 0 - st.gcode.x, args.y.getD 0 - st.gcode.y, args.z.getD 0 - st.gcode.z)
    | .Relative => some (args.x.getD 0, args.y.getD 0, args.z.getD 0)

/-- The position invariant of the spec: `actual_x, actual_y ∈ [0, limit]`,
`actual_z ∈ [z_hotend_location, 0]`. -/
def actualInBounds (cfg : Config) (s : DecodeState) : Prop :=
  0 ≤ s.actual.x ∧ s.actual.x ≤ (cfg.motors.x.limit : ℚ) ∧
  0 ≤ s.actual.y ∧ s.actual.y ≤ (cfg.motors.y.limit : ℚ) ∧
  s.actual.z_hotend_location ≤ s.actual.z ∧ s.actual.z ≤ 0

/-- Every per-axis velocity, acceleration, deceleration and jerk of a
movement is at most its configured limit. -/
def movementRespectsLimits (m : MotorsConfig) (mv : Movement) : Prop :=
  (mv.x.max_frequency ≤ m.x.speed_limit ∧ mv.x.acceleration ≤ m.x.accel_limit ∧
   mv.x.deceleration ≤ m.x.decel_limit ∧ mv.x.acceleration_jerk ≤ m.x.accel_jerk_limit ∧
   mv.x.deceleration_jerk ≤ m.x.decel_jerk_limit) ∧
  (mv.y.max_frequency ≤ m.y.speed_limit ∧ mv.y.acceleration ≤ m.y.accel_limit ∧
   mv.y.deceleration ≤ m.y.decel_limit ∧ mv.y.acceleration_jerk ≤ m.y.accel_jerk_limit ∧
   mv.y.deceleration_jerk ≤ m.y.decel_jerk_limit) ∧
  (mv.z.max_frequency ≤ m.z.speed_limit ∧ mv.z.acceleration ≤ m.z.accel_limit ∧
   mv.z.deceleration ≤ m.z.decel_limit ∧ mv.z.acceleration_jerk ≤ m.z.accel_jerk_limit ∧
   mv.z.deceleration_jerk ≤ m.z.decel_jerk_limit) ∧
  (mv.e.max_frequency ≤ m.e.speed_limit ∧ mv.e.acceleration ≤ m.e.accel_limit ∧
   mv.e.deceleration ≤ m.e.decel_limit ∧ mv.e.acceleration_jerk ≤ m.e.accel_jerk_limit ∧
   mv.e.deceleration_jerk ≤ m.e.decel_jerk_limit)

/-- Componentwise proximity of a quad to a common rescaling `c` of another
quad, up to `err` per component: the claim's "ratio preserved modulo
rounding". -/
def approxScaled (c : ℚ) (v out : Quad) (err : ℚ) : Prop :=
  |out.x - c * v.x| ≤ err ∧ |out.y - c * v.y| ≤ err ∧
  |out.z - c * v.z| ≤ err ∧ |out.e - c * v.e| ≤ err

/-- A `MoveAll`'s movement is within limits; other actions carry no kinematics. -/
def actionRespectsLimits (m : MotorsConfig) : Action → Prop
  | .MoveAll mv => movementRespectsLimits m mv
  | _ => True

/-! ## Concrete fixtures for the closed theorems -/

/-- Axis configuration used by the concrete scenarios: 1 mm per rotation,
full steps, 200 mm travel, generous limits (all within the ranges the
config parser enforces). -/
def sampleAxis : AxisMotor :=
  ⟨1, 1, 0, 200, 1000000, 3000000, 3000000, 100000000, 100000000, .Left, 1000, 50000, 100000⟩

/-- Extruder configuration used by the concrete scenarios. -/
def sampleExt : ExtruderMotor :=
  ⟨.Left, 1, 1, 0, 1000000, 3000000, 3000000, 100000000, 100000000⟩

/-- Full configuration used by the concrete scenarios. -/
def sampleCfg : Config := ⟨⟨30, 250⟩, ⟨30, 120⟩, ⟨sampleAxis, sampleAxis, sampleAxis, sampleExt⟩⟩

/-- A parsed code on line 2 of `f.gcode` (span line 0, offset 1). -/
def mkCode (mn : Mnemonic) (mj : ℕ) (args : List Word) : GCode :=
  ⟨⟨mn, mj, 0, args, 0⟩, 1, "f.gcode"⟩

/-- Fresh decoder state with the hotend 100 mm below the Z endstop, after
`G91` (relative XYZ mode). -/
def stRelative : DecodeState :=
  { DecodeState.new (-100) with gcode := { GCodeState.default with xyz_coord_mode := .Relative } }

/-- The move `G1 X1 Y2 Z-3 F300`. -/
def c3code : GCode := mkCode .General 1 [⟨'X', 1⟩, ⟨'Y', 2⟩, ⟨'Z', -3⟩, ⟨'F', 300⟩]

/-- The move `G1 X10 E5 F300`. -/
def c4code1 : GCode := mkCode .General 1 [⟨'X', 10⟩, ⟨'E', 5⟩, ⟨'F', 300⟩]

/-- The follow-up move `G1 X5 E-1`: X moves back by 5 mm, the extruder
retracts 1 mm. -/
def c4code2 : GCode := mkCode .General 1 [⟨'X', 5⟩, ⟨'E', -1⟩]

/-- The decoder state after `G1 X10 E5 F300` from a fresh state (checked
against `g0_1` in the C4 theorem): position x = 10 mm, 2000 accumulated x
steps, programmed e = 5. -/
def c4StMid : DecodeState :=
  ⟨⟨some 300, 10, 0, 0, 5, .Absolute, .Relative, .Millimeters, none, none⟩,
   ⟨10, 0, 0, 2000, 0, 0, -100⟩⟩

/-- The move `G1 X1000 F300`: its x target (1000 mm) is far beyond the
sample 200 mm limit. -/
def c5BadCode : GCode := mkCode .General 1 [⟨'X', 1000⟩, ⟨'F', 300⟩]

/-- Projection used by the C4 statement: the x target distance, extruder
distance and extruder direction of an emitted `MoveAll`. -/
def c4Fields : Except GCodeError Action → Option (ℤ × ℕ × RotationDirection)
  | .ok (.MoveAll mv) => some (mv.x.distance, mv.e.distance, mv.e.direction)
  | _ => none

/-- The external lexer's behavior on the C8 scenario, modelled from the
`gcode` crate's documented callbacks: the line `N10 G1 X5` carries an
unexpected line number, reported at span line 0 of the parsed text; other
lines are empty. -/
def lexStub : String → LexOut := fun line =>
  if line = "N10 G1 X5" then ⟨[], some (.UnexpectedLineNumber, 0)⟩ else ⟨[], none⟩

/-- A file decoder over the one-line file `N10 G1 X5`. -/
def c8Fd : FileDecoder :=
  FileDecoder.with_state_and_file (DecodeState.new (-100)) ["N10 G1 X5"] "f.gcode"

/-- Axis configuration whose deceleration limit (100) is far below its two
jerk limits (1000): exposes the jerk check of `reference_axis`. -/
def c9AxisLowDecel : AxisMotor :=
  { sampleAxis with decel_limit := 100, accel_jerk_limit := 1000, decel_jerk_limit := 1000 }

/-- Motors built from `c9AxisLowDecel`. -/
def c9MotorsLowDecel : MotorsConfig := ⟨c9AxisLowDecel, c9AxisLowDecel, c9AxisLowDecel, sampleExt⟩

/-- Axis configuration whose deceleration-jerk limit (10) is far below its
deceleration limit (1000): the converse exposure. -/
def c9AxisLowDecelJerk : AxisMotor :=
  { sampleAxis with decel_limit := 1000, accel_jerk_limit := 1000, decel_jerk_limit := 10 }

/-- Motors built from `c9AxisLowDecelJerk`. -/
def c9MotorsLowDecelJerk : MotorsConfig :=
  ⟨c9AxisLowDecelJerk, c9AxisLowDecelJerk, c9AxisLowDecelJerk, sampleExt⟩

/-! ## Claim theorems -/

/-- C1: the claim says the Executor pulls an action from the Decoder only
while the state is Printing, so that after `try_pause` no further action
runs until `try_play`.  The code violates this: `State::pause` leaves the
printing data in place and `executor_loop` pulls whenever
`state.decoder_mut()` is `Some`, so in the Paused state reached by
print-then-pause the loop still pulls and executes decoder actions.  This
theorem evaluates the code at that failing input. -/
theorem c1_executor_pulls_while_paused :
    (ExecState.new (-200)).print 7 = some ⟨.Printing, some ⟨DecodeState.new (-200), 7⟩⟩ ∧
    ExecState.pause ⟨.Printing, some ⟨DecodeState.new (-200), 7⟩⟩
      = some ⟨.Paused, some ⟨DecodeState.new (-200), 7⟩⟩ ∧
    ExecState.pullsFromDecoder ⟨.Paused, some ⟨DecodeState.new (-200), 7⟩⟩ = true :=
  ⟨rfl, rfl, rfl⟩

/-- C2 counterexample: the claim says any request other than the four
listed transitions fails with the matching `StateError`; but `try_play`
while already Printing is such a request and it succeeds (as a no-op). -/
theorem c2_counterexample_play_while_printing :
    HwCtrl.try_play ⟨.Printing, some ⟨"a.gcode", 1⟩⟩
      = .ok ⟨.Printing, some ⟨"a.gcode", 1⟩⟩ := rfl

/-- C2 (amended): the job state machine permits exactly
Stopped→Printing (`try_print`), Printing→Paused (`try_pause`),
Paused→Printing (`try_play`) and any→Stopped (`stop`, idempotent); a
request from the wrong state fails with the matching variant
(`try_print` not Stopped ⇒ `NotStopped`, `try_play`/`try_pause` when
Stopped ⇒ `Stopped`) — except that `try_play` while Printing and
`try_pause` while Paused succeed without changing the state. -/
theorem c2_job_state_transitions (s : JobState) (path : String) :
    (s.state = .Stopped →
      HwCtrl.try_print s path = .ok ⟨.Printing, some ⟨path, 1⟩⟩ ∧
      HwCtrl.try_play s = .error .Stopped ∧
      HwCtrl.try_pause s = .error .Stopped) ∧
    (s.state = .Printing →
      HwCtrl.try_print s path = .error .NotStopped ∧
      HwCtrl.try_pause s = .ok { s with state := .Paused } ∧
      HwCtrl.try_play s = .ok s) ∧
    (s.state = .Paused →
      HwCtrl.try_print s path = .error .NotStopped ∧
      HwCtrl.try_play s = .ok { s with state := .Printing } ∧
      HwCtrl.try_pause s = .ok s) ∧
    HwCtrl.stop s = ⟨.Stopped, none⟩ ∧
    HwCtrl.stop (HwCtrl.stop s) = HwCtrl.stop s := by
  obtain ⟨st, ps⟩ := s
  cases st with
  | Printing =>
    exact ⟨fun h => JobInnerState.noConfusion h, fun _ => ⟨rfl, rfl, rfl⟩,
      fun h => JobInnerState.noConfusion h, rfl, rfl⟩
  | Paused =>
    exact ⟨fun h => JobInnerState.noConfusion h, fun h => JobInnerState.noConfusion h,
      fun _ => ⟨rfl, rfl, rfl⟩, rfl, rfl⟩
  | Stopped =>
    exact ⟨fun _ => ⟨rfl, rfl, rfl⟩, fun h => JobInnerState.noConfusion h,
      fun h => JobInnerState.noConfusion h, rfl, rfl⟩

/-- C2 witness: the characterization applied at concrete states. -/
theorem c2_job_state_transitions_witness :
    HwCtrl.try_print ⟨.Stopped, none⟩ "a.gcode" = .ok ⟨.Printing, some ⟨"a.gcode", 1⟩⟩ ∧
    HwCtrl.try_pause ⟨.Printing, some ⟨"a.gcode", 1⟩⟩ = .ok ⟨.Paused, some ⟨"a.gcode", 1⟩⟩ :=
  ⟨((c2_job_state_transitions ⟨.Stopped, none⟩ "a.gcode").1 rfl).1,
   ((c2_job_state_transitions ⟨.Printing, some ⟨"a.gcode", 1⟩⟩ "a.gcode").2.1 rfl).2.1⟩

/-- C7: the claim says a registered `WaitHotendTarget` returns `Ok` exactly
when the registration-time target is still current and the temperature has
reached it, and `TargetChanged` exactly when the set-point changes.  The
code violates both directions: `set_hotend_target` releases every parked
waiter with `TargetChanged` even when the stored value is identical to the
previous one (third conjunct: target 200 re-set to 200 releases waiter 0),
and `update_hotend_heat` — the only place an `Ok` reply could originate —
is a `FIXME TODO` stub that never sends anything (fourth conjunct). -/
theorem c7_wait_hotend_target_bug :
    PiThreadData.set_hotend_target PiThreadData.new (some 200)
      = some (⟨200, [], 0, [], []⟩, []) ∧
    PiThreadData.add_hotend_waiting ⟨200, [], 0, [], []⟩ 0 = ⟨200, [0], 0, [], []⟩ ∧
    PiThreadData.set_hotend_target ⟨200, [0], 0, [], []⟩ (some 200)
      = some (⟨200, [], 0, [], []⟩, [(0, .error .TargetChanged)]) ∧
    (∀ d : PiThreadData, d.update_hotend_heat = (d, [])) :=
  ⟨rfl, rfl, rfl, fun _ => rfl⟩

/-- C8: the claim says a lexical error makes decoding fail with the
matching `ParsingError` carrying the path and 1-based line, and that the
`FileDecoder` iterator yields that error.  On the one-line file
`N10 G1 X5` (an unexpected line number on line 1) the code produces the
right variant but with the callback's span line 0 instead of the 1-based
line 1 (first conjunct), and `FileDecoder::next` silently ends the stream
(`none`) because `check_buffer` iterates `try_n(...).into_iter()`, which
drops the `Err` (second conjunct). -/
theorem c8_parser_error_swallowed :
    c8Fd.parser.try_n lexStub BUFSIZE
      = some (.error (.ParsingError (.UnexpectedLineNumber ⟨"f.gcode", 0⟩)),
              ⟨[], 513, "f.gcode", true⟩) ∧
    c8Fd.next sampleCfg 1 lexStub
      = some (none, ⟨⟨[], 513, "f.gcode", true⟩, [], DecodeState.new (-100)⟩) :=
  ⟨rfl, rfl⟩

/-- C9: the claim says `try_reference_axis` succeeds exactly when Stopped
and all supplied parameters are within the axis limits (jerk against both
jerk limits).  The code's second jerk check compares against `decel_limit`
while reporting `decel_jerk_limit`: with `decel_limit = 100` and both jerk
limits 1000, jerk 500 is rejected although the claim says it must succeed
(first conjunct, note the reported limit value 1000 is `decel_jerk_limit`
while the comparison used `decel_limit`); with `decel_jerk_limit = 10` and
`decel_limit = 1000`, jerk 500 is accepted although the claim says it must
fail (second conjunct).  The Stopped guard itself behaves as claimed
(third conjunct). -/
theorem c9_jerk_checked_against_decel_limit :
    ExecutorCtrl.reference_axis c9MotorsLowDecel .X ⟨none, none, some 500⟩
      = .error ⟨"accel_decel", 500, 1000⟩ ∧
    ExecutorCtrl.reference_axis c9MotorsLowDecelJerk .X ⟨none, none, some 500⟩
      = .ok (.X, ⟨none, none, some 500⟩) ∧
    HwCtrl.try_reference_axis c9MotorsLowDecel ⟨.Printing, some ⟨"a.gcode", 1⟩⟩ .X
      ⟨none, none, none⟩ = .error (.StateError .NotStopped) :=
  ⟨rfl, rfl, rfl⟩

set_option maxHeartbeats 4000000 in
/-- C3: the claim says that after `G91`, a `G0`/`G1` adds each axis delta
to its own programmed coordinate (prog_x += dx, prog_y += dy,
prog_z += dz).  The code instead adds all three deltas to the programmed
x coordinate and leaves y and z untouched: decoding `G1 X1 Y2 Z-3 F300`
in relative mode from the origin is accepted but leaves the programmed
position at (0, 0, 0) — the claim demands (1, 2, -3). -/
theorem c3_relative_mode_prog_bug :
    (((g0_1 sampleCfg 1 stRelative c3code).2).isOk,
     (g0_1 sampleCfg 1 stRelative c3code).1.gcode.x,
     (g0_1 sampleCfg 1 stRelative c3code).1.gcode.y,
     (g0_1 sampleCfg 1 stRelative c3code).1.gcode.z) = (true, 0, 0, 0) := by
  have hp : parseArgs01 stRelative.gcode.unit c3code c3code.arguments G01Args.empty
      = .ok ⟨some 1, some 2, some (-3), none, some 300⟩ := by
    norm_num [parseArgs01, c3code, mkCode, GCode.arguments, stRelative, DecodeState.new,
      GCodeState.default, LenUnit.in_mm, G01Args.empty]
  dsimp only [g0_1, g01WithArgs, g01Checks, stRelative, DecodeState.new, GCodeState.default,
    ActualState.new, c3code, mkCode, GCode.arguments] at hp ⊢
  rw [hp]
  norm_num [calc_rel, sampleCfg, sampleAxis, g01Calc, mm_to_steps, roundQ, satU32, satI32,
    truncQ, wrapU32, wrapI32, Except.isOk]
  try rfl

set_option maxHeartbeats 4000000 in
/-- C4: the claim says the per-axis step deltas accumulate as signed
values in the step accumulators and that a negative extruder delta flips
the direction with distance equal to the absolute step count.  The
direction flip is implemented, but the `as u32` casts saturate negative
deltas to 0: after `G1 X10 E5 F300` (2000 x steps accumulated, first
conjunct), the follow-up `G1 X5 E-1` leaves `steps_x` at 2000 instead of
decreasing it to 1000 (second conjunct), and the emitted movement keeps
the absolute x target 2000 and carries extruder distance 0 instead of 200
— with the direction duly reversed (third conjunct). -/
theorem c4_saturating_cast_bug :
    ((g0_1 sampleCfg 1 (DecodeState.new (-100)) c4code1).1,
     (g0_1 sampleCfg 1 c4StMid c4code2).1.actual.steps_x,
     c4Fields (g0_1 sampleCfg 1 c4StMid c4code2).2)
      = (c4StMid, 2000, some (2000, 0, .Right)) := by
  have hp1 : parseArgs01 (DecodeState.new (-100)).gcode.unit c4code1 c4code1.arguments
      G01Args.empty = .ok ⟨some 10, none, none, some 5, some 300⟩ := by
    norm_num [parseArgs01, c4code1, mkCode, GCode.arguments, DecodeState.new,
      GCodeState.default, LenUnit.in_mm, G01Args.empty]
  have hp2 : parseArgs01 c4StMid.gcode.unit c4code2 c4code2.arguments G01Args.empty
      = .ok ⟨some 5, none, none, some (-1), none⟩ := by
    norm_num [parseArgs01, c4code2, mkCode, GCode.arguments, c4StMid, LenUnit.in_mm,
      G01Args.empty]
  dsimp only [g0_1, g01WithArgs, g01Checks, DecodeState.new, GCodeState.default,
    ActualState.new, c4code1, c4code2, c4StMid, mkCode, GCode.arguments] at hp1 hp2 ⊢
  rw [hp1, hp2]
  norm_num [calc_rel, sampleCfg, sampleAxis, sampleExt, g01Calc, mm_to_steps, roundQ,
    satU32, satI32, truncQ, wrapU32, wrapI32, u32ToI32, speedChain, calcByChoosing,
    limit1, c4Fields, RotationDirection.reverse]
  try rfl
  try decide


/-- Stage lemma for C5: whenever the checks stage reports success, the
resulting mirrored position satisfies the position invariant. -/
theorem g01Checks_ok_bounds (cfg : Config) (t : ℚ) (st1 : DecodeState) (code : GCode)
    (fopt : Option ℚ) (x y z e : ℚ)
    (h : ((g01Checks cfg t st1 code fopt x y z e).2).isOk = true) :
    actualInBounds cfg (g01Checks cfg t st1 code fopt x y z e).1 := by
  unfold g01Checks at h ⊢
  dsimp only at h ⊢
  split_ifs at h ⊢ with h1 h2 h3 h4 h5 h6 <;> try exact Bool.noConfusion h
  push_neg at h1 h2 h3 h4 h5 h6
  rcases fopt with _ | fv
  · dsimp only at h ⊢
    rcases hfr : st1.gcode.feedrate with _ | f
    · try rw [hfr] at h
      exact Bool.noConfusion h
    · try rw [hfr] at h
      try rw [hfr]
      exact ⟨h1, h4, h2, h5, h3, h6⟩
  · exact ⟨h1, h4, h2, h5, h3, h6⟩

/-- Stage lemma for C5: a target outside the permitted ranges makes the
checks stage fail with `PosOutOfBounds`. -/
theorem g01Checks_out_of_bounds (cfg : Config) (t : ℚ) (st1 : DecodeState) (code : GCode)
    (fopt : Option ℚ) (x y z e : ℚ)
    (hnb : ¬ (0 ≤ st1.actual.x + x ∧ st1.actual.x + x ≤ (cfg.motors.x.limit : ℚ) ∧
              0 ≤ st1.actual.y + y ∧ st1.actual.y + y ≤ (cfg.motors.y.limit : ℚ) ∧
              st1.actual.z_hotend_location ≤ st1.actual.z + z ∧ st1.actual.z + z ≤ 0)) :
    (g01Checks cfg t st1 code fopt x y z e).2 = .error (.PosOutOfBounds code) := by
  unfold g01Checks
  dsimp only
  split_ifs with h1 h2 h3 h4 h5 h6 <;> try rfl
  push_neg at h1 h2 h3 h4 h5 h6
  exact absurd ⟨h1, h4, h2, h5, h3, h6⟩ hnb

/-- C5: after every accepted `G0`/`G1` the mirrored actual position
satisfies `actual_x ∈ [0, x limit]`, `actual_y ∈ [0, y limit]` and
`actual_z ∈ [z_hotend_location, 0]`; and a `G0`/`G1` whose requested
target violates any of these ranges is rejected with `PosOutOfBounds`. -/
theorem c5_actual_position_bounds (cfg : Config) (t : ℚ) (st : DecodeState) (code : GCode) :
    (((g0_1 cfg t st code).2).isOk = true → actualInBounds cfg (g0_1 cfg t st code).1) ∧
    (∀ dx dy dz, g01Deltas st code = some (dx, dy, dz) →
      ¬ (0 ≤ st.actual.x + dx ∧ st.actual.x + dx ≤ (cfg.motors.x.limit : ℚ) ∧
         0 ≤ st.actual.y + dy ∧ st.actual.y + dy ≤ (cfg.motors.y.limit : ℚ) ∧
         st.actual.z_hotend_location ≤ st.actual.z + dz ∧ st.actual.z + dz ≤ 0) →
      (g0_1 cfg t st code).2 = .error (.PosOutOfBounds code)) := by
  constructor
  · intro h
    by_cases hA : code.arguments.isEmpty
    · rw [g0_1, if_pos hA] at h
      exact Bool.noConfusion h
    · rw [g0_1, if_neg hA] at h ⊢
      rcases hp : parseArgs01 st.gcode.unit code code.arguments G01Args.empty with err | args
      · try rw [hp] at h
        exact Bool.noConfusion h
      · try rw [hp] at h
        try rw [hp]
        exact g01Checks_ok_bounds _ _ _ _ _ _ _ _ _ h
  · intro dx dy dz hd hnb
    by_cases hA : code.arguments.isEmpty
    · rw [g01Deltas, if_pos hA] at hd
      exact Option.noConfusion hd
    · rw [g01Deltas, if_neg hA] at hd
      rw [g0_1, if_neg hA]
      rcases hp : parseArgs01 st.gcode.unit code code.arguments G01Args.empty with err | args
      · try rw [hp] at hd
        exact Option.noConfusion hd
      · try rw [hp] at hd
        dsimp only at hd
        show (g01WithArgs cfg t st code args).2 = Except.error (GCodeError.PosOutOfBounds code)
        unfold g01WithArgs
        dsimp only
        rcases hcm : st.gcode.xyz_coord_mode with _ | _ <;> try rw [hcm] at hd
        all_goals
          simp only [Option.some.injEq, Prod.mk.injEq, calc_rel] at hd
          obtain ⟨hdx, hdy, hdz⟩ := hd
          subst hdx
          subst hdy
          subst hdz
          exact g01Checks_out_of_bounds _ _ _ _ _ _ _ _ _ hnb

set_option maxHeartbeats 4000000 in
/-- C5 witness: the invariant at the accepted move `G1 X10 E5 F300` from a
fresh state, and the rejection of `G1 X1000 F300` whose target exceeds the
200 mm limit. -/
theorem c5_actual_position_bounds_witness :
    actualInBounds sampleCfg (g0_1 sampleCfg 1 (DecodeState.new (-100)) c4code1).1 ∧
    (g0_1 sampleCfg 1 (DecodeState.new (-100)) c5BadCode).2
      = .error (.PosOutOfBounds c5BadCode) := by
  constructor
  · refine (c5_actual_position_bounds sampleCfg 1 (DecodeState.new (-100)) c4code1).1 ?_
    have hp1 : parseArgs01 (DecodeState.new (-100)).gcode.unit c4code1 c4code1.arguments
        G01Args.empty = .ok ⟨some 10, none, none, some 5, some 300⟩ := by
      norm_num [parseArgs01, c4code1, mkCode, GCode.arguments, DecodeState.new,
        GCodeState.default, LenUnit.in_mm, G01Args.empty]
    dsimp only [g0_1, g01WithArgs, g01Checks, DecodeState.new, GCodeState.default,
      ActualState.new, c4code1, mkCode, GCode.arguments] at hp1 ⊢
    rw [hp1]
    norm_num [calc_rel, sampleCfg, sampleAxis, g01Calc, mm_to_steps, roundQ, satU32, satI32,
      truncQ, wrapU32, wrapI32, Except.isOk]
    try rfl
  · refine (c5_actual_position_bounds sampleCfg 1 (DecodeState.new (-100)) c5BadCode).2
      1000 0 0 ?_ ?_
    · norm_num [g01Deltas, parseArgs01, c5BadCode, mkCode, GCode.arguments, DecodeState.new,
        GCodeState.default, LenUnit.in_mm, G01Args.empty]
    · norm_num [DecodeState.new, ActualState.new, sampleCfg, sampleAxis]

/-- Helper for C10: an argument list containing a letter other than X or Y
makes the `g28` argument loop fail with `UnknownArgument`. -/
theorem g28Flags_unknown_errors (code : GCode) :
    ∀ (args : List Word) (fl : Bool × Bool) (w : Word),
      w ∈ args → w.letter ≠ 'X' → w.letter ≠ 'Y' →
      ∃ w', g28Flags code args fl = .error (.UnknownArgument w' code) := by
  intro args
  induction args with
  | nil => intro fl w hw; cases hw
  | cons a rest ih =>
    intro fl w hw hx hy
    simp only [g28Flags]
    split
    · cases hw with
      | head => simp_all
      | tail _ hw' => exact ih _ w hw' hx hy
    · cases hw with
      | head => simp_all
      | tail _ hw' => exact ih _ w hw' hx hy
    · exact ⟨a, rfl⟩

/-- C10: a `G28` with no arguments emits exactly
`ReferenceAxis(X, default)` then `ReferenceAxis(Y, default)`; every action
any `G28` emits is one of those two (so Z is never referenced); and a
`G28` carrying any unsupported letter (such as Z) is rejected with
`UnknownArgument`. -/
theorem c10_g28_references_x_y_only :
    (∀ st code, code.arguments = [] →
      g28 st code = (st, .ok [(.ReferenceAxis .X ReferenceRunOptParameters.default, code),
                              (.ReferenceAxis .Y ReferenceRunOptParameters.default, code)])) ∧
    (∀ st code acts, (g28 st code).2 = .ok acts → ∀ a g, (a, g) ∈ acts →
      a = .ReferenceAxis .X ReferenceRunOptParameters.default ∨
      a = .ReferenceAxis .Y ReferenceRunOptParameters.default) ∧
    (∀ st code w, w ∈ code.arguments → w.letter ≠ 'X' → w.letter ≠ 'Y' →
      ∃ w', (g28 st code).2 = .error (.UnknownArgument w' code)) := by
  refine ⟨?_, ?_, ?_⟩
  · intro st code h
    simp [g28, h, List.isEmpty_nil]
  · intro st code acts hok a g hmem
    unfold g28 at hok
    rcases hfl : (if code.arguments.isEmpty then Except.ok (true, true)
        else g28Flags code code.arguments (false, false)) with err | ⟨xf, yf⟩ <;>
      rw [hfl] at hok
    · exact Except.noConfusion hok
    · cases xf <;> cases yf <;> simp at hok <;> subst hok <;> simp at hmem <;> tauto
  · intro st code w hw hx hy
    have hne : code.arguments.isEmpty = false := by
      cases harg : code.arguments with
      | nil => rw [harg] at hw; cases hw
      | cons a rest => simp
    obtain ⟨w', hw'⟩ := g28Flags_unknown_errors code code.arguments (false, false) w hw hx hy
    refine ⟨w', ?_⟩
    simp [g28, hne, hw']

/-- C10 witness: the empty-argument and Z-argument cases at concrete
inputs. -/
theorem c10_g28_witness :
    g28 (DecodeState.new (-100)) (mkCode .General 28 [])
      = (DecodeState.new (-100),
         .ok [(.ReferenceAxis .X ReferenceRunOptParameters.default, mkCode .General 28 []),
              (.ReferenceAxis .Y ReferenceRunOptParameters.default, mkCode .General 28 [])]) ∧
    (∃ w', (g28 (DecodeState.new (-100)) (mkCode .General 28 [⟨'Z', 0⟩])).2
      = .error (.UnknownArgument w' (mkCode .General 28 [⟨'Z', 0⟩]))) := by
  constructor
  · exact c10_g28_references_x_y_only.1 _ _ rfl
  · refine c10_g28_references_x_y_only.2.2 _ _ ⟨'Z', 0⟩ ?_ (by decide) (by decide)
    exact List.Mem.head _


/-! ## Kinematic-limit lemmas (C6) -/

lemma roundQ_le_nat {q : ℚ} {n : ℕ} (h : q ≤ (n : ℚ)) : roundQ q ≤ (n : ℚ) := by
  unfold roundQ
  split_ifs with h0
  · have hfl : ⌊q + 1/2⌋ < (n : ℤ) + 1 := by
      rw [Int.floor_lt]
      push_cast
      linarith
    have : ⌊q + 1/2⌋ ≤ (n : ℤ) := by omega
    exact_mod_cast this
  · have hpos : (0 : ℤ) ≤ ⌊-q + 1/2⌋ := by
      rw [Int.le_floor]
      push_cast
      linarith
    have : (-⌊-q + 1/2⌋ : ℤ) ≤ (n : ℤ) := by omega
    exact_mod_cast this

lemma abs_roundQ_sub_le (q : ℚ) : |roundQ q - q| ≤ 1/2 := by
  unfold roundQ
  split_ifs with h0
  · have h1 : ((⌊q + 1/2⌋ : ℤ) : ℚ) ≤ q + 1/2 := Int.floor_le _
    have h2 : q + 1/2 < ((⌊q + 1/2⌋ : ℤ) : ℚ) + 1 := Int.lt_floor_add_one _
    rw [abs_le]
    constructor <;> linarith
  · have h1 : ((⌊-q + 1/2⌋ : ℤ) : ℚ) ≤ -q + 1/2 := Int.floor_le _
    have h2 : -q + 1/2 < ((⌊-q + 1/2⌋ : ℤ) : ℚ) + 1 := Int.lt_floor_add_one _
    rw [abs_le]
    push_cast
    constructor <;> linarith

lemma scaled_le_nat {b lim a : ℚ} {n : ℕ} (hb : b ≤ (n : ℚ)) (h0 : 0 ≤ lim)
    (hlt : lim < a) : roundQ (b / a * lim) ≤ (n : ℚ) := by
  apply roundQ_le_nat
  have ha : 0 < a := lt_of_le_of_lt h0 hlt
  rcases le_or_lt 0 b with hb0 | hb0
  · have hle : b / a * lim ≤ b := by
      rw [div_mul_eq_mul_div, div_le_iff₀ ha]
      nlinarith
    linarith
  · have hle : b / a * lim ≤ 0 := by
      apply mul_nonpos_iff.2
      right
      exact ⟨(div_nonpos_iff.2 (Or.inr ⟨hb0.le, ha.le⟩) : b / a ≤ 0), h0⟩
    have : (0 : ℚ) ≤ n := Nat.cast_nonneg n
    linarith

lemma limit1_fst_le (lim a b c d : ℚ) : (limit1 lim a b c d).1 ≤ lim := by
  unfold limit1
  split_ifs with h
  · exact le_refl lim
  · exact not_lt.1 h

lemma limit1_snd_le {lim a b c d : ℚ} {n : ℕ} (hm : 0 ≤ lim) (hb : b ≤ (n : ℚ)) :
    (limit1 lim a b c d).2.1 ≤ (n : ℚ) := by
  unfold limit1
  split_ifs with h
  · exact scaled_le_nat hb hm h
  · exact hb

lemma limit1_trd_le {lim a b c d : ℚ} {n : ℕ} (hm : 0 ≤ lim) (hc : c ≤ (n : ℚ)) :
    (limit1 lim a b c d).2.2.1 ≤ (n : ℚ) := by
  unfold limit1
  split_ifs with h
  · exact scaled_le_nat hc hm h
  · exact hc

lemma limit1_fth_le {lim a b c d : ℚ} {n : ℕ} (hm : 0 ≤ lim) (hd : d ≤ (n : ℚ)) :
    (limit1 lim a b c d).2.2.2 ≤ (n : ℚ) := by
  unfold limit1
  split_ifs with h
  · exact scaled_le_nat hd hm h
  · exact hd

lemma speedChain_le (lx ly lz le : ℕ) (v : Quad) :
    (speedChain lx ly lz le v).x ≤ (lx : ℚ) ∧ (speedChain lx ly lz le v).y ≤ (ly : ℚ) ∧
    (speedChain lx ly lz le v).z ≤ (lz : ℚ) ∧ (speedChain lx ly lz le v).e ≤ (le : ℚ) := by
  dsimp only [speedChain]
  set p1 := limit1 (lx : ℚ) v.x v.y v.z v.e with hp1
  set p2 := limit1 (ly : ℚ) p1.2.1 p1.1 p1.2.2.1 p1.2.2.2 with hp2
  set p3 := limit1 (lz : ℚ) p2.2.2.1 p2.2.1 p2.1 p2.2.2.2 with hp3
  set p4 := limit1 (le : ℚ) p3.2.2.2 p3.2.1 p3.2.2.1 p3.1 with hp4
  have hx1 : p1.1 ≤ (lx : ℚ) := hp1 ▸ limit1_fst_le _ _ _ _ _
  have hx2 : p2.2.1 ≤ (lx : ℚ) := hp2 ▸ limit1_snd_le (Nat.cast_nonneg _) hx1
  have hx3 : p3.2.1 ≤ (lx : ℚ) := hp3 ▸ limit1_snd_le (Nat.cast_nonneg _) hx2
  have hx4 : p4.2.1 ≤ (lx : ℚ) := hp4 ▸ limit1_snd_le (Nat.cast_nonneg _) hx3
  have hy2 : p2.1 ≤ (ly : ℚ) := hp2 ▸ limit1_fst_le _ _ _ _ _
  have hy3 : p3.2.2.1 ≤ (ly : ℚ) := hp3 ▸ limit1_trd_le (Nat.cast_nonneg _) hy2
  have hy4 : p4.2.2.1 ≤ (ly : ℚ) := hp4 ▸ limit1_trd_le (Nat.cast_nonneg _) hy3
  have hz3 : p3.1 ≤ (lz : ℚ) := hp3 ▸ limit1_fst_le _ _ _ _ _
  have hz4 : p4.2.2.2 ≤ (lz : ℚ) := hp4 ▸ limit1_fth_le (Nat.cast_nonneg _) hz3
  have he4 : p4.1 ≤ (le : ℚ) := hp4 ▸ limit1_fst_le _ _ _ _ _
  exact ⟨hx4, hy4, hz4, he4⟩

lemma calcByChoosing_le (lx ly lz le : ℕ) (last : Quad) :
    (calcByChoosing lx ly lz le last).x ≤ (lx : ℚ) ∧
    (calcByChoosing lx ly lz le last).y ≤ (ly : ℚ) ∧
    (calcByChoosing lx ly lz le last).z ≤ (lz : ℚ) ∧
    (calcByChoosing lx ly lz le last).e ≤ (le : ℚ) := by
  dsimp only [calcByChoosing]
  set y0 := roundQ (last.y / (last.x / (lx : ℚ))) with hy0
  set z0 := roundQ (last.z / (last.x / (lx : ℚ))) with hz0
  set e0 := roundQ (last.e / (last.x / (lx : ℚ))) with he0
  set p1 := limit1 (ly : ℚ) y0 (lx : ℚ) z0 e0 with hp1
  set p2 := limit1 (lz : ℚ) p1.2.2.1 p1.2.1 p1.1 p1.2.2.2 with hp2
  set p3 := limit1 (le : ℚ) p2.2.2.2 p2.2.1 p2.2.2.1 p2.1 with hp3
  have hx1 : p1.2.1 ≤ (lx : ℚ) := hp1 ▸ limit1_snd_le (Nat.cast_nonneg _) (le_refl _)
  have hx2 : p2.2.1 ≤ (lx : ℚ) := hp2 ▸ limit1_snd_le (Nat.cast_nonneg _) hx1
  have hx3 : p3.2.1 ≤ (lx : ℚ) := hp3 ▸ limit1_snd_le (Nat.cast_nonneg _) hx2
  have hy1 : p1.1 ≤ (ly : ℚ) := hp1 ▸ limit1_fst_le _ _ _ _ _
  have hy2 : p2.2.2.1 ≤ (ly : ℚ) := hp2 ▸ limit1_trd_le (Nat.cast_nonneg _) hy1
  have hy3 : p3.2.2.1 ≤ (ly : ℚ) := hp3 ▸ limit1_trd_le (Nat.cast_nonneg _) hy2
  have hz2 : p2.1 ≤ (lz : ℚ) := hp2 ▸ limit1_fst_le _ _ _ _ _
  have hz3 : p3.2.2.2 ≤ (lz : ℚ) := hp3 ▸ limit1_fth_le (Nat.cast_nonneg _) hz2
  have he3 : p3.1 ≤ (le : ℚ) := hp3 ▸ limit1_fst_le _ _ _ _ _
  exact ⟨hx3, hy3, hz3, he3⟩

lemma satU32_le_nat {q : ℚ} {n : ℕ} (h : q ≤ (n : ℚ)) : satU32 q ≤ n := by
  unfold satU32
  rw [Int.toNat_le]
  apply le_trans (min_le_left _ _)
  unfold truncQ
  split_ifs with h0
  · have : ((⌊q⌋ : ℤ) : ℚ) ≤ (n : ℚ) := le_trans (Int.floor_le q) h
    exact_mod_cast this
  · have : (0 : ℤ) ≤ ⌊-q⌋ := by
      rw [Int.le_floor]
      push_cast
      linarith
    omega

set_option maxHeartbeats 1000000 in
lemma g01Calc_respects_limits (cfg : Config) (t : ℚ) (st3 : DecodeState) (x y z e : ℚ) :
    movementRespectsLimits cfg.motors (g01Calc cfg t st3 x y z e).2 := by
  unfold g01Calc movementRespectsLimits
  dsimp only
  set v := speedChain cfg.motors.x.speed_limit cfg.motors.y.speed_limit
    cfg.motors.z.speed_limit cfg.motors.e.speed_limit
    ⟨roundQ (mm_to_steps x cfg.motors.x.translation cfg.motors.x.step_size / t),
     roundQ (mm_to_steps y cfg.motors.y.translation cfg.motors.y.step_size / t),
     roundQ (mm_to_steps z cfg.motors.z.translation cfg.motors.z.step_size / t),
     roundQ (mm_to_steps e cfg.motors.e.translation cfg.motors.e.step_size / t)⟩ with hv
  set a0 := calcByChoosing cfg.motors.x.accel_limit cfg.motors.y.accel_limit
    cfg.motors.z.accel_limit cfg.motors.e.accel_limit v with ha0
  set j0 := calcByChoosing cfg.motors.x.accel_jerk_limit cfg.motors.y.accel_jerk_limit
    cfg.motors.z.accel_jerk_limit cfg.motors.e.accel_jerk_limit a0 with hj0
  set a1 := calcByChoosing cfg.motors.x.decel_limit cfg.motors.y.decel_limit
    cfg.motors.z.decel_limit cfg.motors.e.decel_limit v with ha1
  set j1 := calcByChoosing cfg.motors.x.decel_jerk_limit cfg.motors.y.decel_jerk_limit
    cfg.motors.z.decel_jerk_limit cfg.motors.e.decel_jerk_limit a1 with hj1
  obtain ⟨hvx, hvy, hvz, hve⟩ := hv ▸ speedChain_le cfg.motors.x.speed_limit
    cfg.motors.y.speed_limit cfg.motors.z.speed_limit cfg.motors.e.speed_limit _
  obtain ⟨ha0x, ha0y, ha0z, ha0e⟩ := ha0 ▸ calcByChoosing_le cfg.motors.x.accel_limit
    cfg.motors.y.accel_limit cfg.motors.z.accel_limit cfg.motors.e.accel_limit v
  obtain ⟨hj0x, hj0y, hj0z, hj0e⟩ := hj0 ▸ calcByChoosing_le cfg.motors.x.accel_jerk_limit
    cfg.motors.y.accel_jerk_limit cfg.motors.z.accel_jerk_limit cfg.motors.e.accel_jerk_limit a0
  obtain ⟨ha1x, ha1y, ha1z, ha1e⟩ := ha1 ▸ calcByChoosing_le cfg.motors.x.decel_limit
    cfg.motors.y.decel_limit cfg.motors.z.decel_limit cfg.motors.e.decel_limit v
  obtain ⟨hj1x, hj1y, hj1z, hj1e⟩ := hj1 ▸ calcByChoosing_le cfg.motors.x.decel_jerk_limit
    cfg.motors.y.decel_jerk_limit cfg.motors.z.decel_jerk_limit cfg.motors.e.decel_jerk_limit a1
  exact ⟨⟨satU32_le_nat hvx, satU32_le_nat ha0x, satU32_le_nat ha1x,
          satU32_le_nat hj0x, satU32_le_nat hj1x⟩,
         ⟨satU32_le_nat hvy, satU32_le_nat ha0y, satU32_le_nat ha1y,
          satU32_le_nat hj0y, satU32_le_nat hj1y⟩,
         ⟨satU32_le_nat hvz, satU32_le_nat ha0z, satU32_le_nat ha1z,
          satU32_le_nat hj0z, satU32_le_nat hj1z⟩,
         ⟨satU32_le_nat hve, satU32_le_nat ha0e, satU32_le_nat ha1e,
          satU32_le_nat hj0e, satU32_le_nat hj1e⟩⟩

lemma g01Checks_ok_respects (cfg : Config) (t : ℚ) (st1 : DecodeState) (code : GCode)
    (fopt : Option ℚ) (x y z e : ℚ) (a : Action)
    (h : (g01Checks cfg t st1 code fopt x y z e).2 = .ok a) :
    actionRespectsLimits cfg.motors a := by
  unfold g01Checks at h
  dsimp only at h
  split_ifs at h with h1 h2 h3 h4 h5 h6
  rcases fopt with _ | fv
  · dsimp only at h
    rcases hfr : st1.gcode.feedrate with _ | f
    all_goals rw [hfr] at h
    · exact Except.noConfusion h
    · rw [Except.ok.injEq] at h
      subst h
      exact g01Calc_respects_limits cfg t _ x y z e
  · dsimp only at h
    rw [Except.ok.injEq] at h
    subst h
    exact g01Calc_respects_limits cfg t _ x y z e

lemma g0_1_ok_respects (cfg : Config) (t : ℚ) (st : DecodeState) (code : GCode)
    (a : Action) (h : (g0_1 cfg t st code).2 = .ok a) :
    actionRespectsLimits cfg.motors a := by
  by_cases hA : code.arguments.isEmpty
  · rw [g0_1, if_pos hA] at h
    exact Except.noConfusion h
  · rw [g0_1, if_neg hA] at h
    rcases hp : parseArgs01 st.gcode.unit code code.arguments G01Args.empty with err | args
    · rw [hp] at h
      exact Except.noConfusion h
    · rw [hp] at h
      exact g01Checks_ok_respects cfg t _ code args.f _ _ _ _ a h

lemma limit1_scale (m : ℕ) (hm : 1 ≤ m) (a b c d : ℚ) :
    ∃ f : ℚ, 0 < f ∧ f ≤ 1 ∧
      (limit1 (m : ℚ) a b c d).1 = f * a ∧
      |(limit1 (m : ℚ) a b c d).2.1 - f * b| ≤ 1/2 ∧
      |(limit1 (m : ℚ) a b c d).2.2.1 - f * c| ≤ 1/2 ∧
      |(limit1 (m : ℚ) a b c d).2.2.2 - f * d| ≤ 1/2 := by
  by_cases h : (m : ℚ) < a
  · have hm0 : (0 : ℚ) < m := by exact_mod_cast hm
    have ha : (0 : ℚ) < a := lt_trans hm0 h
    refine ⟨(m : ℚ) / a, by positivity, ?_, ?_, ?_, ?_, ?_⟩
    · rw [div_le_one ha]
      exact h.le
    · rw [limit1, if_pos h]
      field_simp
    · rw [limit1, if_pos h]
      dsimp only
      rw [show (m : ℚ) / a * b = b / a * (m : ℚ) by ring]
      exact abs_roundQ_sub_le _
    · rw [limit1, if_pos h]
      dsimp only
      rw [show (m : ℚ) / a * c = c / a * (m : ℚ) by ring]
      exact abs_roundQ_sub_le _
    · rw [limit1, if_pos h]
      dsimp only
      rw [show (m : ℚ) / a * d = d / a * (m : ℚ) by ring]
      exact abs_roundQ_sub_le _
  · refine ⟨1, one_pos, le_refl 1, ?_, ?_, ?_, ?_⟩ <;> rw [limit1, if_neg h] <;> dsimp only
    · rw [one_mul]
    · rw [one_mul, sub_self, abs_zero]
      norm_num
    · rw [one_mul, sub_self, abs_zero]
      norm_num
    · rw [one_mul, sub_self, abs_zero]
      norm_num

lemma comp_exact {f c w v err : ℚ} (hf0 : 0 ≤ f) (hf1 : f ≤ 1)
    (h2 : |w - c * v| ≤ err) : |f * w - f * c * v| ≤ err := by
  have hk : f * w - f * c * v = f * (w - c * v) := by ring
  rw [hk, abs_mul, abs_of_nonneg hf0]
  have h3 : f * |w - c * v| ≤ 1 * err := mul_le_mul hf1 h2 (abs_nonneg _) zero_le_one
  linarith

lemma comp_half {f c w v newv err : ℚ} (hf0 : 0 ≤ f) (hf1 : f ≤ 1)
    (h1 : |newv - f * w| ≤ 1/2) (h2 : |w - c * v| ≤ err) :
    |newv - f * c * v| ≤ 1/2 + err := by
  have hk : newv - f * c * v = (newv - f * w) + f * (w - c * v) := by ring
  rw [hk]
  have h3 : |(newv - f * w) + f * (w - c * v)| ≤ |newv - f * w| + |f * (w - c * v)| :=
    abs_add _ _
  have h4 : |f * (w - c * v)| = f * |w - c * v| := by rw [abs_mul, abs_of_nonneg hf0]
  have h5 : f * |w - c * v| ≤ 1 * err := mul_le_mul hf1 h2 (abs_nonneg _) zero_le_one
  rw [h4] at h3
  linarith

lemma pass_scale (m : ℕ) (hm : 1 ≤ m) (a b c d : ℚ) (ca : ℚ) (va vb vc vd err : ℚ)
    (hca0 : 0 < ca) (hca1 : ca ≤ 1)
    (ha : |a - ca * va| ≤ err) (hb : |b - ca * vb| ≤ err)
    (hc : |c - ca * vc| ≤ err) (hd : |d - ca * vd| ≤ err) :
    ∃ c2 : ℚ, 0 < c2 ∧ c2 ≤ 1 ∧
      |(limit1 (m : ℚ) a b c d).1 - c2 * va| ≤ 1/2 + err ∧
      |(limit1 (m : ℚ) a b c d).2.1 - c2 * vb| ≤ 1/2 + err ∧
      |(limit1 (m : ℚ) a b c d).2.2.1 - c2 * vc| ≤ 1/2 + err ∧
      |(limit1 (m : ℚ) a b c d).2.2.2 - c2 * vd| ≤ 1/2 + err := by
  obtain ⟨f, hf0, hf1, hfa, hfb, hfc, hfd⟩ := limit1_scale m hm a b c d
  refine ⟨f * ca, mul_pos hf0 hca0, mul_le_one₀ hf1 hca0.le hca1, ?_, ?_, ?_, ?_⟩
  · rw [hfa, show f * ca * va = f * (ca * va) by ring]
    calc |f * a - f * (ca * va)| = |f * a - f * ca * va| := by ring_nf
      _ ≤ err := comp_exact hf0.le hf1 ha
      _ ≤ 1/2 + err := by linarith
  · calc |(limit1 (m : ℚ) a b c d).2.1 - f * ca * vb|
        = |(limit1 (m : ℚ) a b c d).2.1 - f * (ca * vb)| := by ring_nf
      _ ≤ 1/2 + err := by
          rw [show f * (ca * vb) = f * ca * vb by ring]
          exact comp_half hf0.le hf1 hfb hb
  · calc |(limit1 (m : ℚ) a b c d).2.2.1 - f * ca * vc|
        = |(limit1 (m : ℚ) a b c d).2.2.1 - f * (ca * vc)| := by ring_nf
      _ ≤ 1/2 + err := by
          rw [show f * (ca * vc) = f * ca * vc by ring]
          exact comp_half hf0.le hf1 hfc hc
  · calc |(limit1 (m : ℚ) a b c d).2.2.2 - f * ca * vd|
        = |(limit1 (m : ℚ) a b c d).2.2.2 - f * (ca * vd)| := by ring_nf
      _ ≤ 1/2 + err := by
          rw [show f * (ca * vd) = f * ca * vd by ring]
          exact comp_half hf0.le hf1 hfd hd

lemma speedChain_id (lx ly lz le : ℕ) (v : Quad)
    (hx : v.x ≤ (lx : ℚ)) (hy : v.y ≤ (ly : ℚ))
    (hz : v.z ≤ (lz : ℚ)) (he : v.e ≤ (le : ℚ)) :
    speedChain lx ly lz le v = v := by
  obtain ⟨vx, vy, vz, ve⟩ := v
  dsimp only at hx hy hz he
  have e1 : limit1 (lx : ℚ) vx vy vz ve = (vx, vy, vz, ve) := by
    rw [limit1, if_neg (not_lt.2 hx)]
  have e2 : limit1 (ly : ℚ) vy vx vz ve = (vy, vx, vz, ve) := by
    rw [limit1, if_neg (not_lt.2 hy)]
  have e3 : limit1 (lz : ℚ) vz vx vy ve = (vz, vx, vy, ve) := by
    rw [limit1, if_neg (not_lt.2 hz)]
  have e4 : limit1 (le : ℚ) ve vx vy vz = (ve, vx, vy, vz) := by
    rw [limit1, if_neg (not_lt.2 he)]
  show speedChain lx ly lz le ⟨vx, vy, vz, ve⟩ = ⟨vx, vy, vz, ve⟩
  dsimp only [speedChain]
  rw [e1]
  dsimp only
  rw [e2]
  dsimp only
  rw [e3]
  dsimp only
  rw [e4]

lemma speedChain_scale (lx ly lz le : ℕ) (v : Quad)
    (hx : 1 ≤ lx) (hy : 1 ≤ ly) (hz : 1 ≤ lz) (he : 1 ≤ le) :
    ∃ c : ℚ, 0 < c ∧ c ≤ 1 ∧ approxScaled c v (speedChain lx ly lz le v) 2 ∧
      ((v.x ≤ (lx : ℚ) ∧ v.y ≤ (ly : ℚ) ∧ v.z ≤ (lz : ℚ) ∧ v.e ≤ (le : ℚ)) →
        speedChain lx ly lz le v = v ∧ c = 1) := by
  by_cases hnv : v.x ≤ (lx : ℚ) ∧ v.y ≤ (ly : ℚ) ∧ v.z ≤ (lz : ℚ) ∧ v.e ≤ (le : ℚ)
  · obtain ⟨h1, h2, h3, h4⟩ := hnv
    have hid := speedChain_id lx ly lz le v h1 h2 h3 h4
    refine ⟨1, one_pos, le_refl 1, ?_, fun _ => ⟨hid, rfl⟩⟩
    rw [hid]
    unfold approxScaled
    simp only [one_mul, sub_self, abs_zero]
    norm_num
  · have hb1 : |v.x - 1 * v.x| ≤ (0 : ℚ) := by simp
    have hb2 : |v.y - 1 * v.y| ≤ (0 : ℚ) := by simp
    have hb3 : |v.z - 1 * v.z| ≤ (0 : ℚ) := by simp
    have hb4 : |v.e - 1 * v.e| ≤ (0 : ℚ) := by simp
    obtain ⟨c1, hc10, hc11, h1a, h1b, h1c, h1d⟩ :=
      pass_scale lx hx v.x v.y v.z v.e 1 v.x v.y v.z v.e 0
        one_pos le_rfl hb1 hb2 hb3 hb4
    set p1 := limit1 (lx : ℚ) v.x v.y v.z v.e with hp1
    obtain ⟨c2, hc20, hc21, h2a, h2b, h2c, h2d⟩ :=
      pass_scale ly hy p1.2.1 p1.1 p1.2.2.1 p1.2.2.2 c1 v.y v.x v.z v.e (1/2 + 0)
        hc10 hc11 h1b h1a h1c h1d
    set p2 := limit1 (ly : ℚ) p1.2.1 p1.1 p1.2.2.1 p1.2.2.2 with hp2
    obtain ⟨c3, hc30, hc31, h3a, h3b, h3c, h3d⟩ :=
      pass_scale lz hz p2.2.2.1 p2.2.1 p2.1 p2.2.2.2 c2 v.z v.x v.y v.e (1/2 + (1/2 + 0))
        hc20 hc21 h2c h2b h2a h2d
    set p3 := limit1 (lz : ℚ) p2.2.2.1 p2.2.1 p2.1 p2.2.2.2 with hp3
    obtain ⟨c4, hc40, hc41, h4a, h4b, h4c, h4d⟩ :=
      pass_scale le he p3.2.2.2 p3.2.1 p3.2.2.1 p3.1 c3 v.e v.x v.y v.z
        (1/2 + (1/2 + (1/2 + 0)))
        hc30 hc31 h3d h3b h3c h3a
    set p4 := limit1 (le : ℚ) p3.2.2.2 p3.2.1 p3.2.2.1 p3.1 with hp4
    have hout : speedChain lx ly lz le v = ⟨p4.2.1, p4.2.2.1, p4.2.2.2, p4.1⟩ := rfl
    have hhalf : (1/2 + (1/2 + (1/2 + (1/2 + 0))) : ℚ) ≤ 2 := by norm_num
    refine ⟨c4, hc40, hc41, ?_, fun hcon => absurd hcon hnv⟩
    rw [hout]
    unfold approxScaled
    dsimp only
    exact ⟨le_trans h4b hhalf, le_trans h4c hhalf, le_trans h4d hhalf, le_trans h4a hhalf⟩

/-- C6: every `MoveAll` emitted by an accepted `G0`/`G1` has each axis's
velocity, acceleration, deceleration and jerk at most its configured limit;
the speed-limiting chain rescales all four axis speeds by one common factor
`c ∈ (0, 1]`, each output within 2 of `c` times its input (so the ratio
`v_x:v_y:v_z:v_e` is preserved up to rounding), acting as the identity when
no limit is violated; and a single limiting pass puts the violating value
exactly at its limit while scaling the other three proportionally to within
half a unit. -/
theorem c6_kinematic_limits :
    (∀ (cfg : Config) (t : ℚ) (st : DecodeState) (code : GCode) (a : Action),
      (g0_1 cfg t st code).2 = .ok a → actionRespectsLimits cfg.motors a) ∧
    (∀ (lx ly lz le : ℕ) (v : Quad), 1 ≤ lx → 1 ≤ ly → 1 ≤ lz → 1 ≤ le →
      ∃ c : ℚ, 0 < c ∧ c ≤ 1 ∧ approxScaled c v (speedChain lx ly lz le v) 2 ∧
        ((v.x ≤ (lx : ℚ) ∧ v.y ≤ (ly : ℚ) ∧ v.z ≤ (lz : ℚ) ∧ v.e ≤ (le : ℚ)) →
          speedChain lx ly lz le v = v ∧ c = 1)) ∧
    (∀ (m : ℕ) (a b c d : ℚ), (m : ℚ) < a →
      (limit1 (m : ℚ) a b c d).1 = (m : ℚ) ∧
      |(limit1 (m : ℚ) a b c d).2.1 * a - b * (m : ℚ)| ≤ a / 2 ∧
      |(limit1 (m : ℚ) a b c d).2.2.1 * a - c * (m : ℚ)| ≤ a / 2 ∧
      |(limit1 (m : ℚ) a b c d).2.2.2 * a - d * (m : ℚ)| ≤ a / 2) := by
  refine ⟨g0_1_ok_respects, speedChain_scale, ?_⟩
  intro m a b c d h
  have ha : (0 : ℚ) < a := lt_of_le_of_lt (Nat.cast_nonneg m) h
  rw [limit1, if_pos h]
  refine ⟨rfl, ?_, ?_, ?_⟩ <;> dsimp only
  · have hr := abs_roundQ_sub_le (b / a * (m : ℚ))
    have hk : roundQ (b / a * (m : ℚ)) * a - b * (m : ℚ)
        = (roundQ (b / a * (m : ℚ)) - b / a * (m : ℚ)) * a := by
      field_simp
    rw [hk, abs_mul, abs_of_pos ha]
    have := mul_le_mul_of_nonneg_right hr ha.le
    linarith
  · have hr := abs_roundQ_sub_le (c / a * (m : ℚ))
    have hk : roundQ (c / a * (m : ℚ)) * a - c * (m : ℚ)
        = (roundQ (c / a * (m : ℚ)) - c / a * (m : ℚ)) * a := by
      field_simp
    rw [hk, abs_mul, abs_of_pos ha]
    have := mul_le_mul_of_nonneg_right hr ha.le
    linarith
  · have hr := abs_roundQ_sub_le (d / a * (m : ℚ))
    have hk : roundQ (d / a * (m : ℚ)) * a - d * (m : ℚ)
        = (roundQ (d / a * (m : ℚ)) - d / a * (m : ℚ)) * a := by
      field_simp
    rw [hk, abs_mul, abs_of_pos ha]
    have := mul_le_mul_of_nonneg_right hr ha.le
    linarith

/-- C6 witness: the proportional-scaling clause at the concrete speed quad
`(2000, 500, 0, 0)` against limits of 1000 steps/s on every motor. -/
theorem c6_kinematic_limits_witness :
    ∃ c : ℚ, 0 < c ∧ c ≤ 1 ∧
      approxScaled c ⟨2000, 500, 0, 0⟩
        (speedChain 1000 1000 1000 1000 ⟨2000, 500, 0, 0⟩) 2 ∧
      (((2000 : ℚ) ≤ (1000 : ℕ) ∧ (500 : ℚ) ≤ (1000 : ℕ) ∧
        (0 : ℚ) ≤ (1000 : ℕ) ∧ (0 : ℚ) ≤ (1000 : ℕ)) →
        speedChain 1000 1000 1000 1000 ⟨2000, 500, 0, 0⟩ = ⟨2000, 500, 0, 0⟩ ∧ c = 1) :=
  c6_kinematic_limits.2.1 1000 1000 1000 1000 ⟨2000, 500, 0, 0⟩
    (by norm_num) (by norm_num) (by norm_num) (by norm_num)

end Printd
